import Mathlib

/-!
Verification development for the legal-intake Symbolic Controller.

This file gives a shallow embedding of the repository's deterministic core:
the typed case-file data model (types.ts), the field registry and initial
state (constants.ts), the completeness evaluator and next-action resolver
(stateLogic.ts), the per-vector shallow merges performed in App.tsx, the
scoped-schema builder (services/schemaBuilder.ts) and the defensive JSON
cleaning, conflict screening and extraction-mapping logic of the responder
service (geminiService.ts generation importing schemaBuilder).

JavaScript null is rendered as `Option.none`; a JS object key that may be
absent from a patch is rendered as an outer `Option` (`none` = key absent,
`some v` = key present with value `v`, where `v` itself may be `none` for an
explicit JSON null). Dynamic string-keyed access `caseFile[vector][field]`
is rendered by matching on the closed set of "vector.field" ids that occur
in the source's registry and schema dictionary.
-/

/-- Case status enum: 'QUALIFICATION' | 'INTAKE' | 'REJECTED' | 'REFERRED' | 'CLOSED' (types.ts). -/
inductive CaseStatus
  | qualification
  | intake
  | rejected
  | referred
  | closed
deriving DecidableEq, Repr

/-- Fault-admission status enum: 'Yes' | 'No' | 'Unknown' (types.ts). -/
inductive FAStatus
  | yes
  | no
  | unknown
deriving DecidableEq, Repr

/-- Claimant role enum: 'Driver' | 'Passenger' | 'Pedestrian' (types.ts). -/
inductive ClaimantRole
  | driver
  | passenger
  | pedestrian
deriving DecidableEq, Repr

/-- FaultAdmission struct (types.ts): status and the quoted statement. -/
structure FaultAdmission where
  status : Option FAStatus
  statement : Option String
deriving DecidableEq, Repr

/-- InjuryDetails struct (types.ts). -/
structure InjuryDetails where
  has_injury : Option Bool
  description : Option String
deriving DecidableEq, Repr

/-- HospitalizationDetails struct (types.ts). -/
structure HospitalizationDetails where
  was_hospitalized : Option Bool
  duration : Option String
deriving DecidableEq, Repr

/-- LostWagesDetails struct (types.ts); amount is a JS number. -/
structure LostWagesDetails where
  has_lost_wages : Option Bool
  amount : Option Int
deriving DecidableEq, Repr

/-- ContactVector (types.ts). -/
structure ContactVector where
  full_name : Option String
  phone_number : Option String
  email : Option String
deriving DecidableEq, Repr

/-- IncidentVector (types.ts). -/
structure IncidentVector where
  accident_date : Option String
  accident_time : Option String
  location_jurisdiction : Option String
  police_report_filed : Option Bool
  weather_conditions : Option String
  vehicle_description : Option String
deriving DecidableEq, Repr

/-- LiabilityVector (types.ts); fault_admission is always an object, never null. -/
structure LiabilityVector where
  fault_admission : FaultAdmission
  citation_issued : Option Bool
  witness_presence : Option Bool
  claimant_role : Option ClaimantRole
deriving DecidableEq, Repr

/-- DamagesVector (types.ts); the three structs are always objects, never null. -/
structure DamagesVector where
  injury_details : InjuryDetails
  medical_treatment : Option Bool
  hospitalization_details : HospitalizationDetails
  lost_wages_details : LostWagesDetails
deriving DecidableEq, Repr

/-- AdministrativeVector (types.ts). -/
structure AdministrativeVector where
  insurance_status : Option Bool
  prior_representation : Option Bool
  conflict_party : Option String
deriving DecidableEq, Repr

/-- CaseFile (types.ts): the single mutable record of a session. -/
structure CaseFile where
  case_id : String
  status : CaseStatus
  rejection_reason : Option String
  contact : ContactVector
  incident : IncidentVector
  liability : LiabilityVector
  damages : DamagesVector
  admin : AdministrativeVector
deriving DecidableEq, Repr

/-- One entry of the SOP registry (constants.ts INTAKE_STEPS element shape). -/
structure IntakeStep where
  id : String
  label : String
  vector : String
deriving DecidableEq, Repr

/-- INTAKE_STEPS (constants.ts): the fixed linear order of the intake SOP. -/
def INTAKE_STEPS : List IntakeStep :=
  [ ⟨"contact.full_name", "Full Name", "Contact"⟩
  , ⟨"contact.email", "Email Address", "Contact"⟩
  , ⟨"admin.prior_representation", "Prior Representation", "Administrative"⟩
  , ⟨"admin.conflict_party", "Conflict Check", "Administrative"⟩
  , ⟨"incident.accident_date", "Accident Date", "Incident"⟩
  , ⟨"incident.accident_time", "Accident Time", "Incident"⟩
  , ⟨"incident.location_jurisdiction", "Location", "Incident"⟩
  , ⟨"incident.weather_conditions", "Weather Conditions", "Incident"⟩
  , ⟨"incident.vehicle_description", "Vehicle Description", "Incident"⟩
  , ⟨"incident.police_report_filed", "Police Report", "Incident"⟩
  , ⟨"liability.claimant_role", "Claimant Role", "Liability"⟩
  , ⟨"liability.fault_admission", "Fault Admission", "Liability"⟩
  , ⟨"liability.citation_issued", "Citations Issued", "Liability"⟩
  , ⟨"liability.witness_presence", "Witnesses", "Liability"⟩
  , ⟨"damages.injury_details", "Injuries", "Damages"⟩
  , ⟨"damages.medical_treatment", "Medical Treatment", "Damages"⟩
  , ⟨"damages.hospitalization_details", "Hospitalization", "Damages"⟩
  , ⟨"damages.lost_wages_details", "Lost Wages", "Damages"⟩
  , ⟨"admin.insurance_status", "Insurance Status", "Administrative"⟩ ]

/-- MOCK_CLIENT_DB (constants.ts): the conflict registry of existing client names. -/
def MOCK_CLIENT_DB : List String :=
  ["John Doe", "Sarah Connor", "Kyle Reese", "Cyberdyne Systems", "T-800"]

/-- INITIAL_CASE_FILE (constants.ts): blank state for a new session. -/
def INITIAL_CASE_FILE : CaseFile :=
  { case_id := "CASE-INIT"
  , status := CaseStatus.qualification
  , rejection_reason := none
  , contact := { full_name := none, phone_number := none, email := none }
  , incident :=
      { accident_date := none, accident_time := none, location_jurisdiction := none
      , police_report_filed := none, weather_conditions := none, vehicle_description := none }
  , liability :=
      { fault_admission := { status := none, statement := none }
      , citation_issued := none, witness_presence := none, claimant_role := none }
  , damages :=
      { injury_details := { has_injury := none, description := none }
      , medical_treatment := none
      , hospitalization_details := { was_hospitalized := none, duration := none }
      , lost_wages_details := { has_lost_wages := none, amount := none } }
  , admin := { insurance_status := none, prior_representation := none, conflict_party := none } }

/-- Untyped view of one field value as seen by `isFieldComplete(fieldId, value: any)`.
`nullV` is JS null; the four struct constructors carry the composite values. -/
inductive FieldVal
  | nullV
  | strV (s : String)
  | boolV (b : Bool)
  | numV (n : Int)
  | faV (v : FaultAdmission)
  | injV (v : InjuryDetails)
  | hospV (v : HospitalizationDetails)
  | lwV (v : LostWagesDetails)
deriving DecidableEq, Repr

/-- JS falsiness of a nullable string: `!x` is true exactly for null and "". -/
def jsFalsyStr : Option String → Bool
  | none => true
  | some s => s.isEmpty

/-- Renders `value.status === null` / `'Yes'` branch of isFieldComplete for
liability.fault_admission; on a non-struct value the property reads yield
undefined and both guards are false (duck typing), so the result is true. -/
def faComplete : FieldVal → Bool
  | FieldVal.faV fa =>
      if fa.status = none then false
      else if fa.status = some FAStatus.yes && jsFalsyStr fa.statement then false
      else true
  | _ => true

/-- damages.injury_details branch of isFieldComplete. -/
def injComplete : FieldVal → Bool
  | FieldVal.injV d =>
      if d.has_injury = none then false
      else if d.has_injury = some true && jsFalsyStr d.description then false
      else true
  | _ => true

/-- damages.hospitalization_details branch of isFieldComplete. -/
def hospComplete : FieldVal → Bool
  | FieldVal.hospV d =>
      if d.was_hospitalized = none then false
      else if d.was_hospitalized = some true && jsFalsyStr d.duration then false
      else true
  | _ => true

/-- damages.lost_wages_details branch of isFieldComplete: the dependent check is
`value.amount === null || value.amount === 0`. -/
def lwComplete : FieldVal → Bool
  | FieldVal.lwV d =>
      if d.has_lost_wages = none then false
      else if d.has_lost_wages = some true && (d.amount = none || d.amount = some 0) then false
      else true
  | _ => true

/-- isFieldComplete (stateLogic.ts): null check, then the four composite-field
branches, then the primitive default (non-null is complete). -/
def isFieldComplete (fieldId : String) (value : FieldVal) : Bool :=
  if value = FieldVal.nullV then false
  else if fieldId = "liability.fault_admission" then faComplete value
  else if fieldId = "damages.injury_details" then injComplete value
  else if fieldId = "damages.hospitalization_details" then hospComplete value
  else if fieldId = "damages.lost_wages_details" then lwComplete value
  else true

/-- Lifts a nullable string field into the untyped value view. -/
def optStrVal : Option String → FieldVal
  | none => FieldVal.nullV
  | some s => FieldVal.strV s

/-- Lifts a nullable boolean field into the untyped value view. -/
def optBoolVal : Option Bool → FieldVal
  | none => FieldVal.nullV
  | some b => FieldVal.boolV b

/-- The string stored for a claimant role ('Driver' | 'Passenger' | 'Pedestrian'). -/
def roleString : ClaimantRole → String
  | ClaimantRole.driver => "Driver"
  | ClaimantRole.passenger => "Passenger"
  | ClaimantRole.pedestrian => "Pedestrian"

/-- Lifts a nullable claimant role into the untyped value view. -/
def optRoleVal : Option ClaimantRole → FieldVal
  | none => FieldVal.nullV
  | some r => FieldVal.strV (roleString r)

/-- Renders the dynamic access `caseFile[vectorKey][fieldKey]` over the closed
set of "vector.field" ids used by the registry and the visualizer's getValue.
Ids outside this set never occur in the registry; they fall to `nullV`. -/
def getValue (cf : CaseFile) (slotId : String) : FieldVal :=
  if slotId = "contact.full_name" then optStrVal cf.contact.full_name
  else if slotId = "contact.phone_number" then optStrVal cf.contact.phone_number
  else if slotId = "contact.email" then optStrVal cf.contact.email
  else if slotId = "incident.accident_date" then optStrVal cf.incident.accident_date
  else if slotId = "incident.accident_time" then optStrVal cf.incident.accident_time
  else if slotId = "incident.location_jurisdiction" then optStrVal cf.incident.location_jurisdiction
  else if slotId = "incident.police_report_filed" then optBoolVal cf.incident.police_report_filed
  else if slotId = "incident.weather_conditions" then optStrVal cf.incident.weather_conditions
  else if slotId = "incident.vehicle_description" then optStrVal cf.incident.vehicle_description
  else if slotId = "liability.fault_admission" then FieldVal.faV cf.liability.fault_admission
  else if slotId = "liability.citation_issued" then optBoolVal cf.liability.citation_issued
  else if slotId = "liability.witness_presence" then optBoolVal cf.liability.witness_presence
  else if slotId = "liability.claimant_role" then optRoleVal cf.liability.claimant_role
  else if slotId = "damages.injury_details" then FieldVal.injV cf.damages.injury_details
  else if slotId = "damages.medical_treatment" then optBoolVal cf.damages.medical_treatment
  else if slotId = "damages.hospitalization_details" then FieldVal.hospV cf.damages.hospitalization_details
  else if slotId = "damages.lost_wages_details" then FieldVal.lwV cf.damages.lost_wages_details
  else if slotId = "admin.insurance_status" then optBoolVal cf.admin.insurance_status
  else if slotId = "admin.prior_representation" then optBoolVal cf.admin.prior_representation
  else if slotId = "admin.conflict_party" then optStrVal cf.admin.conflict_party
  else FieldVal.nullV

/-- getNextMissingSlot (stateLogic.ts): gate 1 (prior representation kill switch),
gate 2 (rejected status), then the linear SOP scan returning the first step whose
value is not complete, else "COMPLETE". The source's `vector && typeof vector ===
'object'` guard always holds for registry ids, whose vector keys are the five
always-object vectors of CaseFile. -/
def getNextMissingSlot (cf : CaseFile) : String :=
  if cf.admin.prior_representation = some true then "REJECT_PRIOR_REP"
  else if cf.status = CaseStatus.rejected then "REJECTED_GENERIC"
  else
    match INTAKE_STEPS.find? (fun step => !isFieldComplete step.id (getValue cf step.id)) with
    | some step => step.id
    | none => "COMPLETE"

/-- Patch over ContactVector: each key may be absent (`none`) or present with a
possibly-null value (`some v`), matching a `Partial` JS object. -/
structure ContactPatch where
  full_name : Option (Option String) := none
  phone_number : Option (Option String) := none
  email : Option (Option String) := none
deriving DecidableEq, Repr

/-- Patch over IncidentVector. -/
structure IncidentPatch where
  accident_date : Option (Option String) := none
  accident_time : Option (Option String) := none
  location_jurisdiction : Option (Option String) := none
  police_report_filed : Option (Option Bool) := none
  weather_conditions : Option (Option String) := none
  vehicle_description : Option (Option String) := none
deriving DecidableEq, Repr

/-- Patch over LiabilityVector; a present fault_admission replaces the whole
struct, exactly as the source's shallow per-vector spread does. -/
structure LiabilityPatch where
  fault_admission : Option FaultAdmission := none
  citation_issued : Option (Option Bool) := none
  witness_presence : Option (Option Bool) := none
  claimant_role : Option (Option ClaimantRole) := none
deriving DecidableEq, Repr

/-- Patch over DamagesVector; present structs replace wholesale. -/
structure DamagesPatch where
  injury_details : Option InjuryDetails := none
  medical_treatment : Option (Option Bool) := none
  hospitalization_details : Option HospitalizationDetails := none
  lost_wages_details : Option LostWagesDetails := none
deriving DecidableEq, Repr

/-- Patch over AdministrativeVector. -/
structure AdminPatch where
  insurance_status : Option (Option Bool) := none
  prior_representation : Option (Option Bool) := none
  conflict_party : Option (Option String) := none
deriving DecidableEq, Repr

/-- A `Partial<CaseFile>` patch keyed by vector, as submitted by the fast and
slow producers. The merges in App.tsx only consult the five vectors and
status, so those are the members carried here. -/
structure CasePatch where
  contact : Option ContactPatch := none
  incident : Option IncidentPatch := none
  liability : Option LiabilityPatch := none
  damages : Option DamagesPatch := none
  admin : Option AdminPatch := none
  status : Option CaseStatus := none
deriving DecidableEq, Repr

/-- Shallow union `{...stored, ...patch}` for the contact vector. -/
def mergeContact (c : ContactVector) (p : ContactPatch) : ContactVector :=
  { full_name := p.full_name.getD c.full_name
  , phone_number := p.phone_number.getD c.phone_number
  , email := p.email.getD c.email }

/-- Shallow union for the incident vector. -/
def mergeIncident (c : IncidentVector) (p : IncidentPatch) : IncidentVector :=
  { accident_date := p.accident_date.getD c.accident_date
  , accident_time := p.accident_time.getD c.accident_time
  , location_jurisdiction := p.location_jurisdiction.getD c.location_jurisdiction
  , police_report_filed := p.police_report_filed.getD c.police_report_filed
  , weather_conditions := p.weather_conditions.getD c.weather_conditions
  , vehicle_description := p.vehicle_description.getD c.vehicle_description }

/-- Shallow union for the liability vector. -/
def mergeLiability (c : LiabilityVector) (p : LiabilityPatch) : LiabilityVector :=
  { fault_admission := p.fault_admission.getD c.fault_admission
  , citation_issued := p.citation_issued.getD c.citation_issued
  , witness_presence := p.witness_presence.getD c.witness_presence
  , claimant_role := p.claimant_role.getD c.claimant_role }

/-- Shallow union for the damages vector. -/
def mergeDamages (c : DamagesVector) (p : DamagesPatch) : DamagesVector :=
  { injury_details := p.injury_details.getD c.injury_details
  , medical_treatment := p.medical_treatment.getD c.medical_treatment
  , hospitalization_details := p.hospitalization_details.getD c.hospitalization_details
  , lost_wages_details := p.lost_wages_details.getD c.lost_wages_details }

/-- Shallow union for the admin vector. -/
def mergeAdmin (c : AdministrativeVector) (p : AdminPatch) : AdministrativeVector :=
  { insurance_status := p.insurance_status.getD c.insurance_status
  , prior_representation := p.prior_representation.getD c.prior_representation
  , conflict_party := p.conflict_party.getD c.conflict_party }

/-- Fast-path merge of App.tsx handleSendMessage: for each vector present in
the patch, shallow union; then `if (data.status) updated.status = data.status`. -/
def applyTurnPatch (cf : CaseFile) (p : CasePatch) : CaseFile :=
  { cf with
    contact := match p.contact with | some pc => mergeContact cf.contact pc | none => cf.contact
    incident := match p.incident with | some pc => mergeIncident cf.incident pc | none => cf.incident
    liability := match p.liability with | some pc => mergeLiability cf.liability pc | none => cf.liability
    damages := match p.damages with | some pc => mergeDamages cf.damages pc | none => cf.damages
    admin := match p.admin with | some pc => mergeAdmin cf.admin pc | none => cf.admin
    status := p.status.getD cf.status }

/-- Slow-path (audit) merge of App.tsx performAudit: identical shallow union
over the five vectors; status is not consulted. -/
def applyAuditPatch (cf : CaseFile) (p : CasePatch) : CaseFile :=
  { cf with
    contact := match p.contact with | some pc => mergeContact cf.contact pc | none => cf.contact
    incident := match p.incident with | some pc => mergeIncident cf.incident pc | none => cf.incident
    liability := match p.liability with | some pc => mergeLiability cf.liability pc | none => cf.liability
    damages := match p.damages with | some pc => mergeDamages cf.damages pc | none => cf.damages
    admin := match p.admin with | some pc => mergeAdmin cf.admin pc | none => cf.admin }

/-- The closed set of addressable "vector.field" pairs: the typed rendering
of the dynamic string-keyed access over the record's five vectors. -/
inductive SlotKey
  | contact_full_name
  | contact_phone_number
  | contact_email
  | incident_accident_date
  | incident_accident_time
  | incident_location_jurisdiction
  | incident_police_report_filed
  | incident_weather_conditions
  | incident_vehicle_description
  | liability_fault_admission
  | liability_citation_issued
  | liability_witness_presence
  | liability_claimant_role
  | damages_injury_details
  | damages_medical_treatment
  | damages_hospitalization_details
  | damages_lost_wages_details
  | admin_insurance_status
  | admin_prior_representation
  | admin_conflict_party
deriving DecidableEq, Repr

/-- Resolution of a dot-notation id to its typed slot key; ids outside the
closed set (including ids with no dot, such as "status") resolve to none,
matching the `if (vector && field)` guard over the typed record. -/
def slotKeyOfString (slotId : String) : Option SlotKey :=
  if slotId = "contact.full_name" then some SlotKey.contact_full_name
  else if slotId = "contact.phone_number" then some SlotKey.contact_phone_number
  else if slotId = "contact.email" then some SlotKey.contact_email
  else if slotId = "incident.accident_date" then some SlotKey.incident_accident_date
  else if slotId = "incident.accident_time" then some SlotKey.incident_accident_time
  else if slotId = "incident.location_jurisdiction" then some SlotKey.incident_location_jurisdiction
  else if slotId = "incident.police_report_filed" then some SlotKey.incident_police_report_filed
  else if slotId = "incident.weather_conditions" then some SlotKey.incident_weather_conditions
  else if slotId = "incident.vehicle_description" then some SlotKey.incident_vehicle_description
  else if slotId = "liability.fault_admission" then some SlotKey.liability_fault_admission
  else if slotId = "liability.citation_issued" then some SlotKey.liability_citation_issued
  else if slotId = "liability.witness_presence" then some SlotKey.liability_witness_presence
  else if slotId = "liability.claimant_role" then some SlotKey.liability_claimant_role
  else if slotId = "damages.injury_details" then some SlotKey.damages_injury_details
  else if slotId = "damages.medical_treatment" then some SlotKey.damages_medical_treatment
  else if slotId = "damages.hospitalization_details" then some SlotKey.damages_hospitalization_details
  else if slotId = "damages.lost_wages_details" then some SlotKey.damages_lost_wages_details
  else if slotId = "admin.insurance_status" then some SlotKey.admin_insurance_status
  else if slotId = "admin.prior_representation" then some SlotKey.admin_prior_representation
  else if slotId = "admin.conflict_party" then some SlotKey.admin_conflict_party
  else none

/-- The id a slot key stands for. -/
def slotKeyString : SlotKey → String
  | SlotKey.contact_full_name => "contact.full_name"
  | SlotKey.contact_phone_number => "contact.phone_number"
  | SlotKey.contact_email => "contact.email"
  | SlotKey.incident_accident_date => "incident.accident_date"
  | SlotKey.incident_accident_time => "incident.accident_time"
  | SlotKey.incident_location_jurisdiction => "incident.location_jurisdiction"
  | SlotKey.incident_police_report_filed => "incident.police_report_filed"
  | SlotKey.incident_weather_conditions => "incident.weather_conditions"
  | SlotKey.incident_vehicle_description => "incident.vehicle_description"
  | SlotKey.liability_fault_admission => "liability.fault_admission"
  | SlotKey.liability_citation_issued => "liability.citation_issued"
  | SlotKey.liability_witness_presence => "liability.witness_presence"
  | SlotKey.liability_claimant_role => "liability.claimant_role"
  | SlotKey.damages_injury_details => "damages.injury_details"
  | SlotKey.damages_medical_treatment => "damages.medical_treatment"
  | SlotKey.damages_hospitalization_details => "damages.hospitalization_details"
  | SlotKey.damages_lost_wages_details => "damages.lost_wages_details"
  | SlotKey.admin_insurance_status => "admin.insurance_status"
  | SlotKey.admin_prior_representation => "admin.prior_representation"
  | SlotKey.admin_conflict_party => "admin.conflict_party"

/-- The value a patch proposes at a typed slot key, in the untyped view;
`none` means the key (or its whole vector) is absent from the patch. -/
def slotView (p : CasePatch) : SlotKey → Option FieldVal
  | SlotKey.contact_full_name => p.contact.bind (fun pc => pc.full_name.map optStrVal)
  | SlotKey.contact_phone_number => p.contact.bind (fun pc => pc.phone_number.map optStrVal)
  | SlotKey.contact_email => p.contact.bind (fun pc => pc.email.map optStrVal)
  | SlotKey.incident_accident_date => p.incident.bind (fun pc => pc.accident_date.map optStrVal)
  | SlotKey.incident_accident_time => p.incident.bind (fun pc => pc.accident_time.map optStrVal)
  | SlotKey.incident_location_jurisdiction => p.incident.bind (fun pc => pc.location_jurisdiction.map optStrVal)
  | SlotKey.incident_police_report_filed => p.incident.bind (fun pc => pc.police_report_filed.map optBoolVal)
  | SlotKey.incident_weather_conditions => p.incident.bind (fun pc => pc.weather_conditions.map optStrVal)
  | SlotKey.incident_vehicle_description => p.incident.bind (fun pc => pc.vehicle_description.map optStrVal)
  | SlotKey.liability_fault_admission => p.liability.bind (fun pc => pc.fault_admission.map FieldVal.faV)
  | SlotKey.liability_citation_issued => p.liability.bind (fun pc => pc.citation_issued.map optBoolVal)
  | SlotKey.liability_witness_presence => p.liability.bind (fun pc => pc.witness_presence.map optBoolVal)
  | SlotKey.liability_claimant_role => p.liability.bind (fun pc => pc.claimant_role.map optRoleVal)
  | SlotKey.damages_injury_details => p.damages.bind (fun pc => pc.injury_details.map FieldVal.injV)
  | SlotKey.damages_medical_treatment => p.damages.bind (fun pc => pc.medical_treatment.map optBoolVal)
  | SlotKey.damages_hospitalization_details => p.damages.bind (fun pc => pc.hospitalization_details.map FieldVal.hospV)
  | SlotKey.damages_lost_wages_details => p.damages.bind (fun pc => pc.lost_wages_details.map FieldVal.lwV)
  | SlotKey.admin_insurance_status => p.admin.bind (fun pc => pc.insurance_status.map optBoolVal)
  | SlotKey.admin_prior_representation => p.admin.bind (fun pc => pc.prior_representation.map optBoolVal)
  | SlotKey.admin_conflict_party => p.admin.bind (fun pc => pc.conflict_party.map optStrVal)

/-- Whether a patch proposes a value for the field `slotId`, and that value,
in the untyped view; `none` means the key (or its whole vector) is absent. -/
def patchField (p : CasePatch) (slotId : String) : Option FieldVal :=
  match slotKeyOfString slotId with
  | some sk => slotView p sk
  | none => none

/-- The field ids addressable through the record's five vectors: the registry
ids plus contact.phone_number (present in types.ts but not in the SOP). -/
def allFieldIds : List String :=
  [ "contact.full_name", "contact.phone_number", "contact.email"
  , "incident.accident_date", "incident.accident_time", "incident.location_jurisdiction"
  , "incident.police_report_filed", "incident.weather_conditions", "incident.vehicle_description"
  , "liability.fault_admission", "liability.citation_issued", "liability.witness_presence"
  , "liability.claimant_role"
  , "damages.injury_details", "damages.medical_treatment", "damages.hospitalization_details"
  , "damages.lost_wages_details"
  , "admin.insurance_status", "admin.prior_representation", "admin.conflict_party" ]

/-- The registry ids in SOP order. -/
def registryIds : List String := INTAKE_STEPS.map IntakeStep.id

/-- Primitive schema types used by the master dictionary (Type.STRING etc.). -/
inductive PrimTy
  | str
  | bool
  | num
deriving DecidableEq, Repr, Inhabited

/-- A primitive property declaration: its type and optional enum set. -/
structure PropDef where
  ty : PrimTy
  enumVals : List String := []
deriving DecidableEq, Repr, Inhabited

/-- A field's declared type: primitive/enum, or a one-level object of
primitive properties (the four composite structs). -/
inductive FieldTy
  | prim (p : PropDef)
  | obj (props : List (String × PropDef))
deriving DecidableEq, Repr, Inhabited

/-- A field definition as stored in the master dictionary and emitted into
scoped schemas; nullable defaults to absent/false as in the source. -/
structure FieldDef where
  ty : FieldTy
  nullable : Bool := false
deriving DecidableEq, Repr, Inhabited

/-- Shorthand for a plain string property. -/
def strP : PropDef := { ty := PrimTy.str }

/-- Shorthand for a boolean property. -/
def boolP : PropDef := { ty := PrimTy.bool }

/-- Shorthand for a number property. -/
def numP : PropDef := { ty := PrimTy.num }

/-- Shorthand for a string field definition. -/
def strF : FieldDef := { ty := FieldTy.prim strP }

/-- Shorthand for a boolean field definition. -/
def boolF : FieldDef := { ty := FieldTy.prim boolP }

/-- Shorthand for an enum string field definition. -/
def enumF (vals : List String) : FieldDef :=
  { ty := FieldTy.prim { ty := PrimTy.str, enumVals := vals } }

/-- Shorthand for a one-level object field definition. -/
def objF (props : List (String × PropDef)) : FieldDef := { ty := FieldTy.obj props }

/-- SCHEMA_DEFINITIONS (schemaBuilder.ts): the master dictionary of vector
schemas from which scoped schemas are projected. -/
def SCHEMA_DEFINITIONS : List (String × List (String × FieldDef)) :=
  [ ("contact", [("full_name", strF), ("email", strF)])
  , ("incident",
      [ ("accident_date", strF), ("accident_time", strF)
      , ("location_jurisdiction", strF), ("police_report_filed", boolF)
      , ("weather_conditions", strF), ("vehicle_description", strF) ])
  , ("liability",
      [ ("fault_admission", objF [("status", { ty := PrimTy.str, enumVals := ["Yes", "No", "Unknown"] }), ("statement", strP)])
      , ("citation_issued", boolF), ("witness_presence", boolF)
      , ("claimant_role", enumF ["Driver", "Passenger", "Pedestrian"]) ])
  , ("damages",
      [ ("injury_details", objF [("has_injury", boolP), ("description", strP)])
      , ("medical_treatment", boolF)
      , ("hospitalization_details", objF [("was_hospitalized", boolP), ("duration", strP)])
      , ("lost_wages_details", objF [("has_lost_wages", boolP), ("amount", numP)]) ])
  , ("admin",
      [ ("insurance_status", boolF), ("prior_representation", boolF)
      , ("conflict_party", strF) ]) ]

/-- Characters of a split segment: everything before the next dot. -/
def takeBeforeDot : List Char → List Char
  | [] => []
  | c :: rest => if c = '.' then [] else c :: takeBeforeDot rest

/-- Skip past the first dot, if any. -/
def dropThroughDot : List Char → Option (List Char)
  | [] => none
  | c :: rest => if c = '.' then some rest else dropThroughDot rest

/-- The first two segments of `slotId.split('.')`, as destructured by
`const [vectorKey, fieldKey] = slotId.split('.')`; with no dot the second
destructured element is undefined (`none`). -/
def splitSlotId (slotId : String) : String × Option String :=
  match dropThroughDot slotId.toList with
  | none => (String.mk (takeBeforeDot slotId.toList), none)
  | some rest => (String.mk (takeBeforeDot slotId.toList), some (String.mk (takeBeforeDot rest)))

/-- Fetch `SCHEMA_DEFINITIONS[vectorKey].properties[fieldKey]`; any failure in
the chain (unknown vector, missing second segment, unknown field) is `none`. -/
def lookupMasterField (slotId : String) : Option FieldDef :=
  match splitSlotId slotId with
  | (v, some f) => (SCHEMA_DEFINITIONS.lookup v).bind (fun props => props.lookup f)
  | (_, none) => none

/-- The flat object schema returned by generateScopedSchema. -/
structure ScopedSchema where
  properties : List (String × FieldDef)
  required : List String
deriving DecidableEq, Repr

/-- JS object key assignment `props[slotId] = fieldDef`: overwrite in place if
the key exists, else append. -/
def objInsert (props : List (String × FieldDef)) (key : String) (v : FieldDef) : List (String × FieldDef) :=
  if props.any (fun kv => kv.1 = key) then
    props.map (fun kv => if kv.1 = key then (key, v) else kv)
  else props ++ [(key, v)]

/-- The mandatory free-text key of every scoped schema. -/
def responseTextDef : FieldDef := { ty := FieldTy.prim strP }

/-- One iteration of generateScopedSchema's forEach: inject the master
definition under the flat dot-notation key, forced nullable, and push the key
onto the required list; unknown slots are skipped. -/
def scopedStep (acc : ScopedSchema) (slotId : String) : ScopedSchema :=
  match lookupMasterField slotId with
  | some fdef =>
      { properties := objInsert acc.properties slotId { fdef with nullable := true }
      , required := acc.required ++ [slotId] }
  | none => acc

/-- generateScopedSchema (schemaBuilder.ts): flat object schema over the
requested slot ids plus response_text, all required, slot keys nullable. -/
def generateScopedSchema (missingSlots : List String) : ScopedSchema :=
  missingSlots.foldl scopedStep
    { properties := [("response_text", responseTextDef)], required := ["response_text"] }

/-- Rendering of `toLowerCase()` character-wise (ASCII case folding). -/
def jsToLower (s : String) : String :=
  String.mk (s.toList.map Char.toLower)

/-- Drop leading whitespace characters. -/
def trimLeftWs : List Char → List Char
  | [] => []
  | c :: rest => if c.isWhitespace then trimLeftWs rest else c :: rest

/-- Rendering of `trim()` character-wise: strip whitespace from both ends. -/
def jsTrim (s : String) : String :=
  String.mk ((trimLeftWs ((trimLeftWs s.toList).reverse)).reverse)

/-- Case-insensitive prefix match of a pattern against a character list
(the comparison any JS /.../i regex literal performs on these patterns). -/
def matchesCI : List Char → List Char → Bool
  | [], _ => true
  | _ :: _, [] => false
  | p :: ps, c :: cs => (p.toLower = c.toLower) && matchesCI ps cs

/-- Fuelled scanner for pattern removal; one unit of fuel is spent per input
character, so fuel equal to the input length always suffices. Structural
recursion on the fuel keeps the function kernel-computable. -/
def removeAllCIFuel (pat : List Char) : Nat → List Char → List Char
  | 0, l => l
  | _ + 1, [] => []
  | fuel + 1, c :: rest =>
      if matchesCI pat (c :: rest) then removeAllCIFuel pat fuel (rest.drop (pat.length - 1))
      else c :: removeAllCIFuel pat fuel rest

/-- Global, left-to-right, non-overlapping removal of a pattern, as
`replace(/pat/gi, "")` does; the pattern is matched case-insensitively
(for the all-backtick pattern this coincides with exact matching). -/
def removeAllCI (pat : List Char) (l : List Char) : List Char :=
  removeAllCIFuel pat l.length l

/-- The call `indexOf('\x7b')` as an optional index (JS returns -1 for absence). -/
def firstIdxOf (c : Char) (l : List Char) : Option Nat :=
  l.findIdx? (fun ch => ch = c)

/-- The call `lastIndexOf('\x7d')` as an optional index. -/
def lastIdxOf (c : Char) (l : List Char) : Option Nat :=
  ((l.enum.filter (fun p => p.2 = c)).getLast?).map Prod.fst

/-- The fence-stripping pass of cleanJsonResponse applied to a raw string:
remove all case-insensitive occurrences of "```json", then all "```". -/
def stripFences (text : String) : List Char :=
  removeAllCI "```".toList (removeAllCI "```json".toList text.toList)

/-- Whether the stripped text has a balanced brace pair in the source's sense:
both braces found and lastBrace > firstBrace. -/
def hasBracePair (l : List Char) : Bool :=
  match firstIdxOf '{' l, lastIdxOf '}' l with
  | some firstBrace, some lastBrace => firstBrace < lastBrace
  | _, _ => false

/-- cleanJsonResponse (geminiService.ts): empty input becomes "\x7b\x7d", code
fencing is stripped, the text is cut to its outermost brace pair and trimmed;
without such a pair the result is "\x7b\x7d". -/
def cleanJsonResponse (text : String) : String :=
  if text = "" then "\x7b\x7d"
  else
    match firstIdxOf '{' (stripFences text), lastIdxOf '}' (stripFences text) with
    | some firstBrace, some lastBrace =>
        if firstBrace < lastBrace then
          jsTrim (String.mk (((stripFences text).drop firstBrace).take (lastBrace + 1 - firstBrace)))
        else "\x7b\x7d"
    | _, _ => "\x7b\x7d"

/-- checkConflictInDb (geminiService.ts): falsy names never match; otherwise
lower-case and trim the input and test exact equality against the lowered
registry entries. -/
def checkConflictInDb (name : String) : Bool :=
  if name = "" then false
  else MOCK_CLIENT_DB.any (fun client => jsToLower client = jsTrim (jsToLower name))

/-- Parses a stored claimant-role string back to the enum; scoped schemas
constrain the oracle to the three declared enum strings. -/
def roleOfString (s : String) : Option ClaimantRole :=
  if s = "Driver" then some ClaimantRole.driver
  else if s = "Passenger" then some ClaimantRole.passenger
  else if s = "Pedestrian" then some ClaimantRole.pedestrian
  else none

/-- One typed write `nestedExtraction[vector][field] = value` (with the
vector object created on demand). Values outside the field's declared schema
type are not representable in the typed patch and leave it unchanged; the
scoped schema restricts the oracle to the declared types. -/
def applySlotWrite (acc : CasePatch) (sk : SlotKey) (v : FieldVal) : CasePatch :=
  match sk, v with
  | SlotKey.contact_full_name, FieldVal.strV s => { acc with contact := some { acc.contact.getD {} with full_name := some (some s) } }
  | SlotKey.contact_full_name, FieldVal.nullV => { acc with contact := some { acc.contact.getD {} with full_name := some none } }
  | SlotKey.contact_phone_number, FieldVal.strV s => { acc with contact := some { acc.contact.getD {} with phone_number := some (some s) } }
  | SlotKey.contact_phone_number, FieldVal.nullV => { acc with contact := some { acc.contact.getD {} with phone_number := some none } }
  | SlotKey.contact_email, FieldVal.strV s => { acc with contact := some { acc.contact.getD {} with email := some (some s) } }
  | SlotKey.contact_email, FieldVal.nullV => { acc with contact := some { acc.contact.getD {} with email := some none } }
  | SlotKey.incident_accident_date, FieldVal.strV s => { acc with incident := some { acc.incident.getD {} with accident_date := some (some s) } }
  | SlotKey.incident_accident_date, FieldVal.nullV => { acc with incident := some { acc.incident.getD {} with accident_date := some none } }
  | SlotKey.incident_accident_time, FieldVal.strV s => { acc with incident := some { acc.incident.getD {} with accident_time := some (some s) } }
  | SlotKey.incident_accident_time, FieldVal.nullV => { acc with incident := some { acc.incident.getD {} with accident_time := some none } }
  | SlotKey.incident_location_jurisdiction, FieldVal.strV s => { acc with incident := some { acc.incident.getD {} with location_jurisdiction := some (some s) } }
  | SlotKey.incident_location_jurisdiction, FieldVal.nullV => { acc with incident := some { acc.incident.getD {} with location_jurisdiction := some none } }
  | SlotKey.incident_police_report_filed, FieldVal.boolV b => { acc with incident := some { acc.incident.getD {} with police_report_filed := some (some b) } }
  | SlotKey.incident_police_report_filed, FieldVal.nullV => { acc with incident := some { acc.incident.getD {} with police_report_filed := some none } }
  | SlotKey.incident_weather_conditions, FieldVal.strV s => { acc with incident := some { acc.incident.getD {} with weather_conditions := some (some s) } }
  | SlotKey.incident_weather_conditions, FieldVal.nullV => { acc with incident := some { acc.incident.getD {} with weather_conditions := some none } }
  | SlotKey.incident_vehicle_description, FieldVal.strV s => { acc with incident := some { acc.incident.getD {} with vehicle_description := some (some s) } }
  | SlotKey.incident_vehicle_description, FieldVal.nullV => { acc with incident := some { acc.incident.getD {} with vehicle_description := some none } }
  | SlotKey.liability_fault_admission, FieldVal.faV fa => { acc with liability := some { acc.liability.getD {} with fault_admission := some fa } }
  | SlotKey.liability_citation_issued, FieldVal.boolV b => { acc with liability := some { acc.liability.getD {} with citation_issued := some (some b) } }
  | SlotKey.liability_citation_issued, FieldVal.nullV => { acc with liability := some { acc.liability.getD {} with citation_issued := some none } }
  | SlotKey.liability_witness_presence, FieldVal.boolV b => { acc with liability := some { acc.liability.getD {} with witness_presence := some (some b) } }
  | SlotKey.liability_witness_presence, FieldVal.nullV => { acc with liability := some { acc.liability.getD {} with witness_presence := some none } }
  | SlotKey.liability_claimant_role, FieldVal.strV s =>
      match roleOfString s with
      | some r => { acc with liability := some { acc.liability.getD {} with claimant_role := some (some r) } }
      | none => acc
  | SlotKey.liability_claimant_role, FieldVal.nullV => { acc with liability := some { acc.liability.getD {} with claimant_role := some none } }
  | SlotKey.damages_injury_details, FieldVal.injV d => { acc with damages := some { acc.damages.getD {} with injury_details := some d } }
  | SlotKey.damages_medical_treatment, FieldVal.boolV b => { acc with damages := some { acc.damages.getD {} with medical_treatment := some (some b) } }
  | SlotKey.damages_medical_treatment, FieldVal.nullV => { acc with damages := some { acc.damages.getD {} with medical_treatment := some none } }
  | SlotKey.damages_hospitalization_details, FieldVal.hospV d => { acc with damages := some { acc.damages.getD {} with hospitalization_details := some d } }
  | SlotKey.damages_lost_wages_details, FieldVal.lwV d => { acc with damages := some { acc.damages.getD {} with lost_wages_details := some d } }
  | SlotKey.admin_insurance_status, FieldVal.boolV b => { acc with admin := some { acc.admin.getD {} with insurance_status := some (some b) } }
  | SlotKey.admin_insurance_status, FieldVal.nullV => { acc with admin := some { acc.admin.getD {} with insurance_status := some none } }
  | SlotKey.admin_prior_representation, FieldVal.boolV b => { acc with admin := some { acc.admin.getD {} with prior_representation := some (some b) } }
  | SlotKey.admin_prior_representation, FieldVal.nullV => { acc with admin := some { acc.admin.getD {} with prior_representation := some none } }
  | SlotKey.admin_conflict_party, FieldVal.strV s => { acc with admin := some { acc.admin.getD {} with conflict_party := some (some s) } }
  | SlotKey.admin_conflict_party, FieldVal.nullV => { acc with admin := some { acc.admin.getD {} with conflict_party := some none } }
  | _, _ => acc

/-- Rendering of `nestedExtraction[vector][field] = value`: resolve the dot-notation key
over the closed slot set and perform the typed write; unresolvable keys (no
dot, unknown vector or field) leave the patch unchanged. -/
def setPatchField (acc : CasePatch) (slotId : String) (v : FieldVal) : CasePatch :=
  match slotKeyOfString slotId with
  | some sk => applySlotWrite acc sk v
  | none => acc

/-- The MAP FLAT DATA -> NESTED step of processTurn (geminiService.ts): each
flat entry is dropped when the symbolic validation layer rejects it, and is
otherwise written into the nested extraction patch. -/
def buildNestedExtraction (validate : String → FieldVal → Bool)
    (flatData : List (String × FieldVal)) : CasePatch :=
  flatData.foldl
    (fun acc kv => if !validate kv.1 kv.2 then acc else setPatchField acc kv.1 kv.2) {}

/-- The generic retry prompt used when the oracle omits response_text. -/
def defaultRetryText : String :=
  "I'm sorry, I didn't catch that. Could you please repeat?"

/-- The apology template of the conflict branch. -/
def conflictApology (party : String) : String :=
  "I apologize, but we already represent " ++ party ++ ". Ethically, we cannot proceed."

/-- The system-error reply of the catch handler. -/
def systemErrorText : String := "System Error. Please try again."

/-- The responder turn's structured result (IntakeTurnResponse fields the
symbolic layer determines). -/
structure TurnResult where
  extracted_data : CasePatch
  response_text : String
  next_system_action : Option String
deriving DecidableEq, Repr

/-- Reads `flatData[key]` as a string, the shape the scoped schema declares
for admin.conflict_party and response_text. -/
def flatLookupStr (flatData : List (String × FieldVal)) (key : String) : Option String :=
  match flatData.lookup key with
  | some (FieldVal.strV s) => some s
  | _ => none

/-- Rendering of `flatData.response_text` with its default: JS falls back on a falsy
(absent or empty) string. -/
def turnResponseText (flatData0 : List (String × FieldVal)) : String :=
  match flatLookupStr flatData0 "response_text" with
  | some s => if s = "" then defaultRetryText else s
  | none => defaultRetryText

/-- Rendering of `delete flatData.response_text`: the flat data without its free-text key. -/
def stripResponseText (flatData0 : List (String × FieldVal)) : List (String × FieldVal) :=
  flatData0.filter (fun kv => !(kv.1 = "response_text"))

/-- The validated nested extraction a turn builds from its flat data. -/
def turnNested (validate : String → FieldVal → Bool)
    (flatData0 : List (String × FieldVal)) : CasePatch :=
  buildNestedExtraction validate (stripResponseText flatData0)

/-- The post-parse half of processTurn (geminiService.ts): pull response_text
out of the flat data, delete that key, build the validated nested extraction,
then run the symbolic conflict check on the raw flat conflict-party value; a
registry match returns the terminal rejection patch, otherwise the nested
extraction is returned unchanged. -/
def processTurnResult (validate : String → FieldVal → Bool)
    (flatData0 : List (String × FieldVal)) : TurnResult :=
  match flatLookupStr (stripResponseText flatData0) "admin.conflict_party" with
  | some party =>
      if party ≠ "" && checkConflictInDb party then
        { extracted_data :=
            { turnNested validate flatData0 with
              status := some CaseStatus.rejected
            , admin := some { (turnNested validate flatData0).admin.getD {} with
                conflict_party := some (some party) } }
        , response_text := conflictApology party
        , next_system_action := some "REJECTED_GENERIC" }
      else
        { extracted_data := turnNested validate flatData0
        , response_text := turnResponseText flatData0
        , next_system_action := none }
  | none =>
      { extracted_data := turnNested validate flatData0
      , response_text := turnResponseText flatData0
      , next_system_action := none }

/-- A whole responder turn from the oracle's raw text, abstracting JSON.parse
as a fallible parser into flat key/value entries: parse failure lands in the
catch handler, which returns an empty extraction. -/
def processTurnFromRaw (validate : String → FieldVal → Bool)
    (parse : String → Option (List (String × FieldVal))) (raw : String) : TurnResult :=
  match parse (cleanJsonResponse raw) with
  | some flatData0 => processTurnResult validate flatData0
  | none =>
      { extracted_data := {}
      , response_text := systemErrorText
      , next_system_action := some "ERROR" }

/-- A fully populated record: every registry field complete, status REJECTED,
and prior representation affirmed — exercising gate 1 against gate 2 and a
complete registry at once. -/
def priorRepRejectedFullCase : CaseFile :=
  { case_id := "CASE-PRIOR-REP"
  , status := CaseStatus.rejected
  , rejection_reason := none
  , contact := { full_name := some "Jane Roe", phone_number := some "555-0100", email := some "jane@roe.example" }
  , incident :=
      { accident_date := some "2025-01-15", accident_time := some "Morning"
      , location_jurisdiction := some "Springfield, IL", police_report_filed := some true
      , weather_conditions := some "Clear", vehicle_description := some "2015 Red Toyota Camry" }
  , liability :=
      { fault_admission := { status := some FAStatus.yes, statement := some "He said sorry" }
      , citation_issued := some true, witness_presence := some true
      , claimant_role := some ClaimantRole.driver }
  , damages :=
      { injury_details := { has_injury := some true, description := some "Broken leg" }
      , medical_treatment := some true
      , hospitalization_details := { was_hospitalized := some true, duration := some "3 days" }
      , lost_wages_details := { has_lost_wages := some true, amount := some 5000 } }
  , admin := { insurance_status := some true, prior_representation := some true, conflict_party := some "Acme Corp" } }

/-- A record mid-intake whose full name is already stored. -/
def namedRecord : CaseFile :=
  { INITIAL_CASE_FILE with
    contact := { INITIAL_CASE_FILE.contact with full_name := some "Jane Roe" } }

/-- A fast-path patch proposing only contact.email. -/
def emailOnlyPatch : CasePatch :=
  { contact := some { email := some (some "a@b.com") } }

/-- The fast-path patch of the race scenario: the user corrects their name
after the audit snapshot was taken (write at version 2). -/
def raceFastPatch : CasePatch :=
  { contact := some { full_name := some (some "Jane Roe-Smith") } }

/-- The stale slow-path patch of the race scenario: computed from the
version-1 snapshot, it invalidates the old name by setting it to null. -/
def raceStaleAuditPatch : CasePatch :=
  { contact := some { full_name := some none } }

/-- The record after the newer fast-path write has landed. -/
def raceRecordV2 : CaseFile := applyTurnPatch namedRecord raceFastPatch

/-- A rejected session record: conflict screening has set status REJECTED. -/
def conflictRejectedCase : CaseFile :=
  { INITIAL_CASE_FILE with
    status := CaseStatus.rejected
  , contact := { INITIAL_CASE_FILE.contact with full_name := some "Max Payne", email := some "max@payne.example" }
  , admin := { INITIAL_CASE_FILE.admin with conflict_party := some "John Doe" } }

/-- A validator accepting every candidate (used to exercise conflict turns). -/
def acceptAll : String → FieldVal → Bool := fun _ _ => true

/-- A validator rejecting every candidate (used to exercise validation drops). -/
def rejectAll : String → FieldVal → Bool := fun _ _ => false

/-- A minimal parser recognising only the empty JSON object, enough to drive
the defensive-parsing paths. -/
def emptyObjParse : String → Option (List (String × FieldVal)) :=
  fun s => if s = "\x7b\x7d" then some [] else none

/-- A linear scan returns the element at the first index satisfying the
predicate when all earlier indices fail it. -/
theorem find_eq_of_first_true {α : Type} (p : α → Bool) :
    ∀ (l : List α) (i : Nat) (h : i < l.length),
      p (l.get ⟨i, h⟩) = true →
      (∀ j, ∀ hj : j < i, p (l.get ⟨j, Nat.lt_trans hj h⟩) = false) →
      l.find? p = some (l.get ⟨i, h⟩) := by
  intro l
  induction l with
  | nil => intro i h; exact absurd h (Nat.not_lt_zero i)
  | cons a t ih =>
    intro i h hp hearlier
    cases i with
    | zero =>
      simpa using List.find?_cons_of_pos t hp
    | succ n =>
      have h0 : p a = false := hearlier 0 (Nat.succ_pos n)
      have hrw : (a :: t).find? p = t.find? p := List.find?_cons_of_neg t (by simp [h0])
      rw [hrw]
      exact ih n (Nat.lt_of_succ_lt_succ h) hp (fun j hj => hearlier (j + 1) (Nat.succ_lt_succ hj))

/-- Conversely, a successful linear scan hit sits at some index whose earlier
indices all fail the predicate. -/
theorem find_some_first_index {α : Type} (p : α → Bool) :
    ∀ (l : List α) (b : α), l.find? p = some b →
      ∃ i, ∃ h : i < l.length, l.get ⟨i, h⟩ = b ∧ p b = true ∧
        ∀ j, ∀ hj : j < i, p (l.get ⟨j, Nat.lt_trans hj h⟩) = false := by
  intro l
  induction l with
  | nil => intro b hb; simp at hb
  | cons a t ih =>
    intro b hfind
    by_cases hpa : p a = true
    · rw [List.find?_cons_of_pos t hpa] at hfind
      obtain rfl : a = b := Option.some.inj hfind
      exact ⟨0, Nat.succ_pos t.length, rfl, hpa, fun j hj => absurd hj (Nat.not_lt_zero j)⟩
    · have hpa2 : p a = false := Bool.eq_false_iff.mpr hpa
      rw [List.find?_cons_of_neg t (by simp [hpa2])] at hfind
      obtain ⟨i, h, hget, hp, hearlier⟩ := ih b hfind
      refine ⟨i + 1, Nat.succ_lt_succ h, hget, hp, ?_⟩
      intro j hj
      cases j with
      | zero => exact hpa2
      | succ m => exact hearlier m (Nat.lt_of_succ_lt_succ hj)

/-- C1: whenever admin.prior_representation is true, getNextMissingSlot
returns "REJECT_PRIOR_REP", regardless of the record's status (including
REJECTED) and of every other field. -/
theorem c1_prior_rep_kill_switch (cf : CaseFile)
    (h : cf.admin.prior_representation = some true) :
    getNextMissingSlot cf = "REJECT_PRIOR_REP" := by
  simp [getNextMissingSlot, h]

/-- Witness for C1: a record with prior representation true, status REJECTED
and every registry field complete still resolves to REJECT_PRIOR_REP. -/
theorem c1_prior_rep_kill_switch_witness :
    priorRepRejectedFullCase.admin.prior_representation = some true ∧
    priorRepRejectedFullCase.status = CaseStatus.rejected ∧
    INTAKE_STEPS.all (fun step => isFieldComplete step.id (getValue priorRepRejectedFullCase step.id)) = true ∧
    getNextMissingSlot priorRepRejectedFullCase = "REJECT_PRIOR_REP" :=
  ⟨rfl, rfl, by decide, c1_prior_rep_kill_switch priorRepRejectedFullCase rfl⟩

/-- C2: with gate 1 and gate 2 off, getNextMissingSlot returns the id of the
lowest-index registry entry whose isFieldComplete is false — it never skips an
earlier incomplete entry — and returns "COMPLETE" when every entry is complete. -/
theorem c2_linear_scan_first_incomplete (cf : CaseFile)
    (h1 : cf.admin.prior_representation ≠ some true)
    (h2 : cf.status ≠ CaseStatus.rejected) :
    (INTAKE_STEPS.all (fun step => isFieldComplete step.id (getValue cf step.id)) = true →
      getNextMissingSlot cf = "COMPLETE")
    ∧ (∀ i : Nat, ∀ h : i < INTAKE_STEPS.length,
        isFieldComplete (INTAKE_STEPS.get ⟨i, h⟩).id (getValue cf (INTAKE_STEPS.get ⟨i, h⟩).id) = false →
        (∀ j, ∀ hj : j < i,
          isFieldComplete (INTAKE_STEPS.get ⟨j, Nat.lt_trans hj h⟩).id
            (getValue cf (INTAKE_STEPS.get ⟨j, Nat.lt_trans hj h⟩).id) = true) →
        getNextMissingSlot cf = (INTAKE_STEPS.get ⟨i, h⟩).id) := by
  constructor
  · intro hall
    have hnone : INTAKE_STEPS.find? (fun step => !isFieldComplete step.id (getValue cf step.id)) = none := by
      rw [List.find?_eq_none]
      intro step hstep
      have := List.all_eq_true.mp hall step hstep
      simp [this]
    simp [getNextMissingSlot, h1, h2, hnone]
  · intro i h hfail hearlier
    have hfind :
        INTAKE_STEPS.find? (fun step => !isFieldComplete step.id (getValue cf step.id)) =
          some (INTAKE_STEPS.get ⟨i, h⟩) := by
      apply find_eq_of_first_true
      · simpa using hfail
      · intro j hj
        simpa using hearlier j hj
    simp [getNextMissingSlot, h1, h2, hfind]

/-- Witness for C2: on the blank initial record the resolver returns the
first registry id, contact.full_name. -/
theorem c2_linear_scan_first_incomplete_witness :
    getNextMissingSlot INITIAL_CASE_FILE = "contact.full_name" := by
  have := (c2_linear_scan_first_incomplete INITIAL_CASE_FILE (by decide) (by decide)).2
    0 (by decide) (by decide) (fun j hj => absurd hj (Nat.not_lt_zero j))
  simpa using this

/-- C3: for the four composite fields, a null value or a null discriminator is
incomplete independent of the dependent member; an affirmative discriminator
with a null-or-empty dependent is incomplete, and a lost-wages amount of 0
does not satisfy the dependent condition. -/
theorem c3_composite_incomplete_rules :
    (∀ fid, fid ∈ ["liability.fault_admission", "damages.injury_details",
        "damages.hospitalization_details", "damages.lost_wages_details"] →
      isFieldComplete fid FieldVal.nullV = false)
    ∧ (∀ fa : FaultAdmission, fa.status = none →
        isFieldComplete "liability.fault_admission" (FieldVal.faV fa) = false)
    ∧ (∀ fa : FaultAdmission, fa.status = some FAStatus.yes → jsFalsyStr fa.statement = true →
        isFieldComplete "liability.fault_admission" (FieldVal.faV fa) = false)
    ∧ (∀ d : InjuryDetails, d.has_injury = none →
        isFieldComplete "damages.injury_details" (FieldVal.injV d) = false)
    ∧ (∀ d : InjuryDetails, d.has_injury = some true → jsFalsyStr d.description = true →
        isFieldComplete "damages.injury_details" (FieldVal.injV d) = false)
    ∧ (∀ d : HospitalizationDetails, d.was_hospitalized = none →
        isFieldComplete "damages.hospitalization_details" (FieldVal.hospV d) = false)
    ∧ (∀ d : HospitalizationDetails, d.was_hospitalized = some true → jsFalsyStr d.duration = true →
        isFieldComplete "damages.hospitalization_details" (FieldVal.hospV d) = false)
    ∧ (∀ d : LostWagesDetails, d.has_lost_wages = none →
        isFieldComplete "damages.lost_wages_details" (FieldVal.lwV d) = false)
    ∧ (∀ d : LostWagesDetails, d.has_lost_wages = some true →
        d.amount = none ∨ d.amount = some 0 →
        isFieldComplete "damages.lost_wages_details" (FieldVal.lwV d) = false) := by
  refine ⟨?_, ?_, ?_, ?_, ?_, ?_, ?_, ?_, ?_⟩
  · intro fid hfid
    fin_cases hfid <;> simp [isFieldComplete]
  · intro fa hfa
    simp [isFieldComplete, faComplete, hfa]
  · intro fa hfa hstmt
    simp [isFieldComplete, faComplete, hfa, hstmt]
  · intro d hd
    simp [isFieldComplete, injComplete, hd]
  · intro d hd hdesc
    simp [isFieldComplete, injComplete, hd, hdesc]
  · intro d hd
    simp [isFieldComplete, hospComplete, hd]
  · intro d hd hdur
    simp [isFieldComplete, hospComplete, hd, hdur]
  · intro d hd
    simp [isFieldComplete, lwComplete, hd]
  · intro d hd hamt
    rcases hamt with hamt | hamt <;> simp [isFieldComplete, lwComplete, hd, hamt]

/-- Witness for C3: concrete incomplete composite values — an admitted fault
with no statement, and lost wages claimed with an amount of exactly 0. -/
theorem c3_composite_incomplete_rules_witness :
    isFieldComplete "liability.fault_admission"
      (FieldVal.faV { status := some FAStatus.yes, statement := none }) = false ∧
    isFieldComplete "damages.lost_wages_details"
      (FieldVal.lwV { has_lost_wages := some true, amount := some 0 }) = false ∧
    isFieldComplete "damages.injury_details"
      (FieldVal.injV { has_injury := some true, description := some "" }) = false :=
  ⟨c3_composite_incomplete_rules.2.2.1 _ rfl rfl,
   c3_composite_incomplete_rules.2.2.2.2.2.2.2.2 _ rfl (Or.inr rfl),
   c3_composite_incomplete_rules.2.2.2.2.1 _ rfl rfl⟩

/-- C10: a non-null, non-affirmative discriminator alone completes each
composite field, even with a null or empty dependent member. -/
theorem c10_nonaffirmative_discriminator_completes :
    (∀ stmt : Option String,
      isFieldComplete "liability.fault_admission"
        (FieldVal.faV { status := some FAStatus.no, statement := stmt }) = true)
    ∧ (∀ stmt : Option String,
      isFieldComplete "liability.fault_admission"
        (FieldVal.faV { status := some FAStatus.unknown, statement := stmt }) = true)
    ∧ (∀ desc : Option String,
      isFieldComplete "damages.injury_details"
        (FieldVal.injV { has_injury := some false, description := desc }) = true)
    ∧ (∀ dur : Option String,
      isFieldComplete "damages.hospitalization_details"
        (FieldVal.hospV { was_hospitalized := some false, duration := dur }) = true)
    ∧ (∀ amt : Option Int,
      isFieldComplete "damages.lost_wages_details"
        (FieldVal.lwV { has_lost_wages := some false, amount := amt }) = true) := by
  refine ⟨?_, ?_, ?_, ?_, ?_⟩ <;> intro x <;>
    simp [isFieldComplete, faComplete, injComplete, hospComplete, lwComplete]

/-- A field absent from a patch keeps its stored value under both shallow
merges (shared frame lemma). -/
theorem merge_frame_both (cf : CaseFile) (p : CasePatch) (slot : String)
    (hmem : slot ∈ allFieldIds) (habsent : patchField p slot = none) :
    getValue (applyTurnPatch cf p) slot = getValue cf slot ∧
    getValue (applyAuditPatch cf p) slot = getValue cf slot := by
  simp only [allFieldIds, List.mem_cons, List.not_mem_nil, or_false] at hmem
  rcases hmem with rfl | rfl | rfl | rfl | rfl | rfl | rfl | rfl | rfl | rfl | rfl | rfl | rfl | rfl | rfl | rfl | rfl | rfl | rfl | rfl
  · simp [patchField, slotKeyOfString, slotView] at habsent
    rcases hp : p.contact with _ | pc
    · simp [getValue, applyTurnPatch, applyAuditPatch, hp]
    · rw [hp] at habsent
      simp at habsent
      simp [getValue, applyTurnPatch, applyAuditPatch, hp, mergeContact, habsent]
  · simp [patchField, slotKeyOfString, slotView] at habsent
    rcases hp : p.contact with _ | pc
    · simp [getValue, applyTurnPatch, applyAuditPatch, hp]
    · rw [hp] at habsent
      simp at habsent
      simp [getValue, applyTurnPatch, applyAuditPatch, hp, mergeContact, habsent]
  · simp [patchField, slotKeyOfString, slotView] at habsent
    rcases hp : p.contact with _ | pc
    · simp [getValue, applyTurnPatch, applyAuditPatch, hp]
    · rw [hp] at habsent
      simp at habsent
      simp [getValue, applyTurnPatch, applyAuditPatch, hp, mergeContact, habsent]
  · simp [patchField, slotKeyOfString, slotView] at habsent
    rcases hp : p.incident with _ | pc
    · simp [getValue, applyTurnPatch, applyAuditPatch, hp]
    · rw [hp] at habsent
      simp at habsent
      simp [getValue, applyTurnPatch, applyAuditPatch, hp, mergeIncident, habsent]
  · simp [patchField, slotKeyOfString, slotView] at habsent
    rcases hp : p.incident with _ | pc
    · simp [getValue, applyTurnPatch, applyAuditPatch, hp]
    · rw [hp] at habsent
      simp at habsent
      simp [getValue, applyTurnPatch, applyAuditPatch, hp, mergeIncident, habsent]
  · simp [patchField, slotKeyOfString, slotView] at habsent
    rcases hp : p.incident with _ | pc
    · simp [getValue, applyTurnPatch, applyAuditPatch, hp]
    · rw [hp] at habsent
      simp at habsent
      simp [getValue, applyTurnPatch, applyAuditPatch, hp, mergeIncident, habsent]
  · simp [patchField, slotKeyOfString, slotView] at habsent
    rcases hp : p.incident with _ | pc
    · simp [getValue, applyTurnPatch, applyAuditPatch, hp]
    · rw [hp] at habsent
      simp at habsent
      simp [getValue, applyTurnPatch, applyAuditPatch, hp, mergeIncident, habsent]
  · simp [patchField, slotKeyOfString, slotView] at habsent
    rcases hp : p.incident with _ | pc
    · simp [getValue, applyTurnPatch, applyAuditPatch, hp]
    · rw [hp] at habsent
      simp at habsent
      simp [getValue, applyTurnPatch, applyAuditPatch, hp, mergeIncident, habsent]
  · simp [patchField, slotKeyOfString, slotView] at habsent
    rcases hp : p.incident with _ | pc
    · simp [getValue, applyTurnPatch, applyAuditPatch, hp]
    · rw [hp] at habsent
      simp at habsent
      simp [getValue, applyTurnPatch, applyAuditPatch, hp, mergeIncident, habsent]
  · simp [patchField, slotKeyOfString, slotView] at habsent
    rcases hp : p.liability with _ | pc
    · simp [getValue, applyTurnPatch, applyAuditPatch, hp]
    · rw [hp] at habsent
      simp at habsent
      simp [getValue, applyTurnPatch, applyAuditPatch, hp, mergeLiability, habsent]
  · simp [patchField, slotKeyOfString, slotView] at habsent
    rcases hp : p.liability with _ | pc
    · simp [getValue, applyTurnPatch, applyAuditPatch, hp]
    · rw [hp] at habsent
      simp at habsent
      simp [getValue, applyTurnPatch, applyAuditPatch, hp, mergeLiability, habsent]
  · simp [patchField, slotKeyOfString, slotView] at habsent
    rcases hp : p.liability with _ | pc
    · simp [getValue, applyTurnPatch, applyAuditPatch, hp]
    · rw [hp] at habsent
      simp at habsent
      simp [getValue, applyTurnPatch, applyAuditPatch, hp, mergeLiability, habsent]
  · simp [patchField, slotKeyOfString, slotView] at habsent
    rcases hp : p.liability with _ | pc
    · simp [getValue, applyTurnPatch, applyAuditPatch, hp]
    · rw [hp] at habsent
      simp at habsent
      simp [getValue, applyTurnPatch, applyAuditPatch, hp, mergeLiability, habsent]
  · simp [patchField, slotKeyOfString, slotView] at habsent
    rcases hp : p.damages with _ | pc
    · simp [getValue, applyTurnPatch, applyAuditPatch, hp]
    · rw [hp] at habsent
      simp at habsent
      simp [getValue, applyTurnPatch, applyAuditPatch, hp, mergeDamages, habsent]
  · simp [patchField, slotKeyOfString, slotView] at habsent
    rcases hp : p.damages with _ | pc
    · simp [getValue, applyTurnPatch, applyAuditPatch, hp]
    · rw [hp] at habsent
      simp at habsent
      simp [getValue, applyTurnPatch, applyAuditPatch, hp, mergeDamages, habsent]
  · simp [patchField, slotKeyOfString, slotView] at habsent
    rcases hp : p.damages with _ | pc
    · simp [getValue, applyTurnPatch, applyAuditPatch, hp]
    · rw [hp] at habsent
      simp at habsent
      simp [getValue, applyTurnPatch, applyAuditPatch, hp, mergeDamages, habsent]
  · simp [patchField, slotKeyOfString, slotView] at habsent
    rcases hp : p.damages with _ | pc
    · simp [getValue, applyTurnPatch, applyAuditPatch, hp]
    · rw [hp] at habsent
      simp at habsent
      simp [getValue, applyTurnPatch, applyAuditPatch, hp, mergeDamages, habsent]
  · simp [patchField, slotKeyOfString, slotView] at habsent
    rcases hp : p.admin with _ | pc
    · simp [getValue, applyTurnPatch, applyAuditPatch, hp]
    · rw [hp] at habsent
      simp at habsent
      simp [getValue, applyTurnPatch, applyAuditPatch, hp, mergeAdmin, habsent]
  · simp [patchField, slotKeyOfString, slotView] at habsent
    rcases hp : p.admin with _ | pc
    · simp [getValue, applyTurnPatch, applyAuditPatch, hp]
    · rw [hp] at habsent
      simp at habsent
      simp [getValue, applyTurnPatch, applyAuditPatch, hp, mergeAdmin, habsent]
  · simp [patchField, slotKeyOfString, slotView] at habsent
    rcases hp : p.admin with _ | pc
    · simp [getValue, applyTurnPatch, applyAuditPatch, hp]
    · rw [hp] at habsent
      simp at habsent
      simp [getValue, applyTurnPatch, applyAuditPatch, hp, mergeAdmin, habsent]

/-- C4: a field absent from a patch's vector sub-object, or whose whole vector
is absent from the patch, keeps its stored value under both the fast-path and
the slow-path (audit) shallow merge. -/
theorem c4_merge_frame_preservation (cf : CaseFile) (p : CasePatch) (slot : String)
    (hmem : slot ∈ allFieldIds) (habsent : patchField p slot = none) :
    getValue (applyTurnPatch cf p) slot = getValue cf slot ∧
    getValue (applyAuditPatch cf p) slot = getValue cf slot :=
  merge_frame_both cf p slot hmem habsent

/-- Witness for C4: applying a patch containing only contact.email to a record
whose contact.full_name is already "Jane Roe" leaves full_name unchanged while
the patched email lands. -/
theorem c4_merge_frame_preservation_witness :
    patchField emailOnlyPatch "contact.full_name" = none ∧
    getValue namedRecord "contact.full_name" = FieldVal.strV "Jane Roe" ∧
    getValue (applyTurnPatch namedRecord emailOnlyPatch) "contact.full_name" = FieldVal.strV "Jane Roe" ∧
    getValue (applyTurnPatch namedRecord emailOnlyPatch) "contact.email" = FieldVal.strV "a@b.com" := by
  have h := c4_merge_frame_preservation namedRecord emailOnlyPatch "contact.full_name"
    (by decide) (by decide)
  exact ⟨by decide, by decide, h.1.trans (by decide), by decide⟩

/-- C5 refuting evidence: the audit merge carries no version information and
is a naive shallow union, so a slow-path correction computed from the older
version-1 snapshot (here: invalidating contact.full_name to null) overwrites
the strictly newer fast-path value "Jane Roe-Smith" written after that
snapshot was taken — exactly the Thinker-overwrite race the repository's own
technical-debt notes describe. -/
theorem c5_stale_audit_overwrite_evidence :
    raceRecordV2.contact.full_name = some "Jane Roe-Smith" ∧
    (applyAuditPatch raceRecordV2 raceStaleAuditPatch).contact.full_name = none :=
  ⟨rfl, rfl⟩

/-- Folding scopedStep over fresh, resolvable slots appends one nullable
property and one required key per slot, in order. -/
theorem scoped_foldl_props :
    ∀ (slots : List String) (acc : ScopedSchema),
      (∀ s ∈ slots, (lookupMasterField s).isSome = true) →
      slots.Nodup →
      (∀ s ∈ slots, ∀ kv ∈ acc.properties, kv.1 ≠ s) →
      (slots.foldl scopedStep acc).properties =
        acc.properties ++
          slots.map (fun s => (s, { (lookupMasterField s).getD default with nullable := true })) ∧
      (slots.foldl scopedStep acc).required = acc.required ++ slots := by
  intro slots
  induction slots with
  | nil => intro acc _ _ _; simp
  | cons s rest ih =>
    intro acc hsome hnd hfresh
    obtain ⟨d, hd⟩ := Option.isSome_iff_exists.mp (hsome s (by simp))
    have hnotin : acc.properties.any (fun kv => kv.1 = s) = false := by
      simp only [List.any_eq_false, decide_eq_true_eq]
      intro kv hkv
      exact hfresh s (by simp) kv hkv
    have hstep : scopedStep acc s =
        { properties := acc.properties ++ [(s, { d with nullable := true })]
        , required := acc.required ++ [s] } := by
      simp only [scopedStep, hd, objInsert, hnotin]
      simp
    have hs_rest : s ∉ rest := (List.nodup_cons.mp hnd).1
    have hfresh2 : ∀ t ∈ rest,
        ∀ kv ∈ (acc.properties ++ [(s, { d with nullable := true })]), kv.1 ≠ t := by
      intro t ht kv hkv
      rcases List.mem_append.mp hkv with hkv | hkv
      · exact hfresh t (by simp [ht]) kv hkv
      · simp only [List.mem_singleton] at hkv
        subst hkv
        intro hcon
        apply hs_rest
        rwa [show s = t from hcon]
    obtain ⟨h1, h2⟩ := ih { properties := acc.properties ++ [(s, { d with nullable := true })]
                          , required := acc.required ++ [s] }
      (fun t ht => hsome t (by simp [ht])) (List.nodup_cons.mp hnd).2 hfresh2
    constructor
    · rw [List.foldl_cons, hstep, h1]
      simp [hd]
    · rw [List.foldl_cons, hstep, h2]
      simp

/-- Looking up a key present in a key-tagged map hits its tagged value. -/
theorem lookup_map_pair {β : Type} (g : String → β) :
    ∀ (l : List String) (s : String), s ∈ l →
      (l.map (fun t => (t, g t))).lookup s = some (g s) := by
  intro l
  induction l with
  | nil => intro s hs; simp at hs
  | cons t rest ih =>
    intro s hs
    by_cases hts : s = t
    · subst hts
      simp [List.lookup]
    · have hmem : s ∈ rest := by
        rcases List.mem_cons.mp hs with h | h
        · exact absurd h hts
        · exact h
      have hbeq : (s == t) = false := by
        simp only [beq_eq_false_iff_ne, ne_eq]
        exact hts
      simp [List.lookup, hbeq, ih s hmem]

/-- C6: for requested slot ids drawn (without repetition) from the registry,
generateScopedSchema emits a flat object whose property keys are exactly the
requested ids plus response_text, lists exactly those keys as required, and
marks every slot key nullable — no other key is permitted. -/
theorem c6_scoped_schema_shape (slots : List String)
    (hmem : ∀ s ∈ slots, s ∈ registryIds) (hnd : slots.Nodup) :
    (generateScopedSchema slots).properties.map Prod.fst = "response_text" :: slots ∧
    (generateScopedSchema slots).required = "response_text" :: slots ∧
    ∀ s ∈ slots, ∃ d : FieldDef,
      (generateScopedSchema slots).properties.lookup s = some d ∧ d.nullable = true := by
  have hall : ∀ t ∈ registryIds, (lookupMasterField t).isSome = true := by decide
  have hne : ∀ t ∈ registryIds, t ≠ "response_text" := by decide
  have hsome : ∀ s ∈ slots, (lookupMasterField s).isSome = true :=
    fun s hs => hall s (hmem s hs)
  have hfresh : ∀ s ∈ slots,
      ∀ kv ∈ ([("response_text", responseTextDef)] : List (String × FieldDef)), kv.1 ≠ s := by
    intro s hs kv hkv
    simp only [List.mem_singleton] at hkv
    subst hkv
    intro hcon
    exact hne s (hmem s hs) (by rw [← hcon])
  obtain ⟨hp, hr⟩ := scoped_foldl_props slots
    { properties := [("response_text", responseTextDef)], required := ["response_text"] }
    hsome hnd hfresh
  refine ⟨?_, ?_, ?_⟩
  · rw [generateScopedSchema, hp]
    simp only [List.map_append, List.map_cons, List.map_nil, List.map_map]
    have h1 : (Prod.fst ∘ fun s =>
        (s, ({ ty := ((lookupMasterField s).getD default).ty, nullable := true } : FieldDef))) =
        fun s => s := rfl
    rw [h1]
    simp
  · rw [generateScopedSchema, hr]
    simp
  · intro s hs
    refine ⟨{ (lookupMasterField s).getD default with nullable := true }, ?_, rfl⟩
    rw [generateScopedSchema, hp]
    have hlk := lookup_map_pair
      (fun t => ({ (lookupMasterField t).getD default with nullable := true } : FieldDef)) slots s hs
    have hnes : (s == "response_text") = false := by
      simp only [beq_eq_false_iff_ne, ne_eq]
      exact hne s (hmem s hs)
    simp only [List.cons_append, List.nil_append, List.lookup, hnes]
    simpa using hlk

/-- Witness for C6: a concrete two-slot request yields exactly those property
keys and required keys, with the slot key nullable. -/
theorem c6_scoped_schema_shape_witness :
    (generateScopedSchema ["contact.full_name", "contact.email"]).properties.map Prod.fst =
      ["response_text", "contact.full_name", "contact.email"] ∧
    (generateScopedSchema ["contact.full_name", "contact.email"]).required =
      ["response_text", "contact.full_name", "contact.email"] ∧
    ((generateScopedSchema ["contact.full_name", "contact.email"]).properties.lookup
      "contact.full_name").map FieldDef.nullable = some true := by
  have h := c6_scoped_schema_shape ["contact.full_name", "contact.email"] (by decide) (by decide)
  refine ⟨h.1, h.2.1, ?_⟩
  obtain ⟨d, hd, hn⟩ := h.2.2 "contact.full_name" (by simp)
  rw [hd]
  simp [hn]

set_option maxHeartbeats 1600000 in
/-- A typed slot write never touches the patch's status member. -/
theorem applySlotWrite_status (acc : CasePatch) (sk : SlotKey) (v : FieldVal) :
    (applySlotWrite acc sk v).status = acc.status := by
  obtain ⟨pc, pi, pl, pd, pa, ps⟩ := acc
  cases sk <;> cases v <;> first
    | rfl
    | (simp only [applySlotWrite]; split <;> rfl)

/-- Writing one flat field never touches the patch's status member. -/
theorem setPatchField_status (acc : CasePatch) (k : String) (v : FieldVal) :
    (setPatchField acc k v).status = acc.status := by
  unfold setPatchField
  cases hsk : slotKeyOfString k with
  | none => rfl
  | some sk => exact applySlotWrite_status acc sk v

set_option maxHeartbeats 4000000 in
/-- A typed slot write leaves every other slot's view unchanged. -/
theorem slotView_applySlotWrite_ne (acc : CasePatch) (sk sk2 : SlotKey) (v : FieldVal)
    (hne : sk ≠ sk2) :
    slotView (applySlotWrite acc sk v) sk2 = slotView acc sk2 := by
  obtain ⟨pc, pi, pl, pd, pa, ps⟩ := acc
  cases sk <;> cases sk2 <;> (try (exact absurd rfl hne)) <;> cases v <;> first
    | rfl
    | (cases pc <;> rfl)
    | (cases pi <;> rfl)
    | (cases pl <;> rfl)
    | (cases pd <;> rfl)
    | (cases pa <;> rfl)
    | (simp only [applySlotWrite]; split <;> first | rfl | (cases pl <;> rfl))

/-- A resolvable id is the id of its slot key. -/
theorem slotKeyOfString_inj {s : String} {sk : SlotKey}
    (h : slotKeyOfString s = some sk) : s = slotKeyString sk := by
  unfold slotKeyOfString at h
  by_cases hc0 : s = "contact.full_name"
  · rw [if_pos hc0] at h
    injection h with h2
    subst h2
    exact hc0
  · rw [if_neg hc0] at h
    by_cases hc1 : s = "contact.phone_number"
    · rw [if_pos hc1] at h
      injection h with h2
      subst h2
      exact hc1
    · rw [if_neg hc1] at h
      by_cases hc2 : s = "contact.email"
      · rw [if_pos hc2] at h
        injection h with h2
        subst h2
        exact hc2
      · rw [if_neg hc2] at h
        by_cases hc3 : s = "incident.accident_date"
        · rw [if_pos hc3] at h
          injection h with h2
          subst h2
          exact hc3
        · rw [if_neg hc3] at h
          by_cases hc4 : s = "incident.accident_time"
          · rw [if_pos hc4] at h
            injection h with h2
            subst h2
            exact hc4
          · rw [if_neg hc4] at h
            by_cases hc5 : s = "incident.location_jurisdiction"
            · rw [if_pos hc5] at h
              injection h with h2
              subst h2
              exact hc5
            · rw [if_neg hc5] at h
              by_cases hc6 : s = "incident.police_report_filed"
              · rw [if_pos hc6] at h
                injection h with h2
                subst h2
                exact hc6
              · rw [if_neg hc6] at h
                by_cases hc7 : s = "incident.weather_conditions"
                · rw [if_pos hc7] at h
                  injection h with h2
                  subst h2
                  exact hc7
                · rw [if_neg hc7] at h
                  by_cases hc8 : s = "incident.vehicle_description"
                  · rw [if_pos hc8] at h
                    injection h with h2
                    subst h2
                    exact hc8
                  · rw [if_neg hc8] at h
                    by_cases hc9 : s = "liability.fault_admission"
                    · rw [if_pos hc9] at h
                      injection h with h2
                      subst h2
                      exact hc9
                    · rw [if_neg hc9] at h
                      by_cases hc10 : s = "liability.citation_issued"
                      · rw [if_pos hc10] at h
                        injection h with h2
                        subst h2
                        exact hc10
                      · rw [if_neg hc10] at h
                        by_cases hc11 : s = "liability.witness_presence"
                        · rw [if_pos hc11] at h
                          injection h with h2
                          subst h2
                          exact hc11
                        · rw [if_neg hc11] at h
                          by_cases hc12 : s = "liability.claimant_role"
                          · rw [if_pos hc12] at h
                            injection h with h2
                            subst h2
                            exact hc12
                          · rw [if_neg hc12] at h
                            by_cases hc13 : s = "damages.injury_details"
                            · rw [if_pos hc13] at h
                              injection h with h2
                              subst h2
                              exact hc13
                            · rw [if_neg hc13] at h
                              by_cases hc14 : s = "damages.medical_treatment"
                              · rw [if_pos hc14] at h
                                injection h with h2
                                subst h2
                                exact hc14
                              · rw [if_neg hc14] at h
                                by_cases hc15 : s = "damages.hospitalization_details"
                                · rw [if_pos hc15] at h
                                  injection h with h2
                                  subst h2
                                  exact hc15
                                · rw [if_neg hc15] at h
                                  by_cases hc16 : s = "damages.lost_wages_details"
                                  · rw [if_pos hc16] at h
                                    injection h with h2
                                    subst h2
                                    exact hc16
                                  · rw [if_neg hc16] at h
                                    by_cases hc17 : s = "admin.insurance_status"
                                    · rw [if_pos hc17] at h
                                      injection h with h2
                                      subst h2
                                      exact hc17
                                    · rw [if_neg hc17] at h
                                      by_cases hc18 : s = "admin.prior_representation"
                                      · rw [if_pos hc18] at h
                                        injection h with h2
                                        subst h2
                                        exact hc18
                                      · rw [if_neg hc18] at h
                                        by_cases hc19 : s = "admin.conflict_party"
                                        · rw [if_pos hc19] at h
                                          injection h with h2
                                          subst h2
                                          exact hc19
                                        · rw [if_neg hc19] at h
                                          exact absurd h (by simp)

/-- Writing one flat key leaves every other key's patch view unchanged. -/
theorem patchField_setPatchField_ne (acc : CasePatch) (k : String) (v : FieldVal)
    (s : String) (hne : s ≠ k) :
    patchField (setPatchField acc k v) s = patchField acc s := by
  unfold patchField setPatchField
  cases hsk : slotKeyOfString k with
  | none => rfl
  | some sk =>
    cases hss : slotKeyOfString s with
    | none => rfl
    | some sk2 =>
      have hkk : sk ≠ sk2 := by
        intro hcon
        subst hcon
        exact hne ((slotKeyOfString_inj hss).trans (slotKeyOfString_inj hsk).symm)
      exact slotView_applySlotWrite_ne acc sk sk2 v hkk

/-- The empty patch proposes nothing. -/
theorem patchField_empty (s : String) : patchField {} s = none := by
  unfold patchField
  cases slotKeyOfString s with
  | none => rfl
  | some sk => cases sk <;> rfl

/-- The validated nested extraction never proposes a status. -/
theorem buildNested_status (validate : String → FieldVal → Bool)
    (flatData : List (String × FieldVal)) :
    (buildNestedExtraction validate flatData).status = none := by
  unfold buildNestedExtraction
  have hgo : ∀ (l : List (String × FieldVal)) (acc : CasePatch), acc.status = none →
      (l.foldl (fun acc kv => if !validate kv.1 kv.2 then acc else setPatchField acc kv.1 kv.2)
        acc).status = none := by
    intro l
    induction l with
    | nil => intro acc hacc; simpa using hacc
    | cons kv rest ih =>
      intro acc hacc
      rw [List.foldl_cons]
      apply ih
      by_cases hv : validate kv.1 kv.2
      · simp only [hv, Bool.not_true, Bool.false_eq_true, if_false]
        rw [setPatchField_status]
        exact hacc
      · simp only [Bool.not_eq_true] at hv
        simp [hv, hacc]
  exact hgo flatData {} rfl

/-- A key missing from an association list has no pair in it. -/
theorem lookup_none_not_mem {β : Type} {l : List (String × β)} {k : String} {w : β}
    (h : l.lookup k = none) : (k, w) ∉ l := by
  induction l with
  | nil => simp
  | cons kv rest ih =>
    intro hmem
    rcases List.mem_cons.mp hmem with hmem | hmem
    · rw [← hmem] at h
      simp [List.lookup] at h
    · rw [List.lookup] at h
      rcases hbeq : (k == kv.1) with _ | _
      · rw [hbeq] at h
        exact ih h hmem
      · rw [hbeq] at h
        simp at h

/-- With distinct keys, membership determines the lookup. -/
theorem lookup_of_mem_nodup {β : Type} {l : List (String × β)} {k : String} {w : β}
    (hnd : (l.map Prod.fst).Nodup) (hmem : (k, w) ∈ l) : l.lookup k = some w := by
  induction l with
  | nil => simp at hmem
  | cons kv rest ih =>
    rcases List.mem_cons.mp hmem with hmem1 | hmem1
    · rw [← hmem1]
      simp [List.lookup]
    · have hk_ne : k ≠ kv.1 := by
        intro hcon
        have hhead : kv.1 ∉ rest.map Prod.fst := (List.nodup_cons.mp (by simpa using hnd)).1
        exact hhead (by
          rw [← hcon]
          exact List.mem_map_of_mem Prod.fst hmem1)
      have hbeq : (k == kv.1) = false := by
        simp only [beq_eq_false_iff_ne, ne_eq]
        exact hk_ne
      rw [List.lookup, hbeq]
      exact ih (List.nodup_cons.mp (by simpa using hnd)).2 hmem1

/-- When every candidate for a key fails validation, the nested extraction
proposes nothing for that key. -/
theorem buildNested_patchField_notin (validate : String → FieldVal → Bool)
    (flatData : List (String × FieldVal)) (s : String)
    (h : ∀ w, (s, w) ∈ flatData → validate s w = false) :
    patchField (buildNestedExtraction validate flatData) s = none := by
  unfold buildNestedExtraction
  have hgo : ∀ (l : List (String × FieldVal)) (acc : CasePatch),
      (∀ w, (s, w) ∈ l → validate s w = false) →
      patchField acc s = none →
      patchField (l.foldl (fun acc kv => if !validate kv.1 kv.2 then acc else setPatchField acc kv.1 kv.2)
        acc) s = none := by
    intro l
    induction l with
    | nil => intro acc _ hacc; simpa using hacc
    | cons kv rest ih =>
      intro acc hl hacc
      obtain ⟨k1, w1⟩ := kv
      rw [List.foldl_cons]
      apply ih _ (fun w hw => hl w (List.mem_cons_of_mem (k1, w1) hw))
      by_cases hks : k1 = s
      · subst hks
        have hv : validate k1 w1 = false := hl w1 (List.mem_cons_self (k1, w1) rest)
        simp [hv, hacc]
      · by_cases hval : validate k1 w1
        · simp only [hval, Bool.not_true, Bool.false_eq_true, if_false]
          rw [patchField_setPatchField_ne acc k1 w1 s (fun hcon => hks hcon.symm)]
          exact hacc
        · simp only [Bool.not_eq_true] at hval
          simp [hval, hacc]
  exact hgo flatData {} h (patchField_empty s)

/-- A string read from the flat data pins down the underlying lookup. -/
theorem flatLookupStr_some {l : List (String × FieldVal)} {k s : String}
    (h : flatLookupStr l k = some s) : l.lookup k = some (FieldVal.strV s) := by
  unfold flatLookupStr at h
  rcases hl : l.lookup k with _ | v
  · rw [hl] at h
    simp at h
  · rw [hl] at h
    cases v <;> simp_all

/-- Deleting the response_text key does not disturb lookups of other keys. -/
theorem lookup_filter_rt {β : Type} (l : List (String × β)) (k : String)
    (hk : ¬(k = "response_text")) :
    (l.filter (fun kv => !(kv.1 = "response_text"))).lookup k = l.lookup k := by
  induction l with
  | nil => simp
  | cons kv rest ih =>
    by_cases h1 : kv.1 = "response_text"
    · have hne : (k == "response_text") = false := by
        simp only [beq_eq_false_iff_ne, ne_eq]
        exact hk
      simp [List.filter_cons, h1, List.lookup, hne, ih]
    · cases h2 : (k == kv.1) <;> simp [List.filter_cons, h1, List.lookup, h2, ih]

/-- C7: a candidate equal, after lower-casing and trimming, to a lowered
conflict-registry entry always screens as a match, and no other candidate
ever does; a screened conflict turn returns a patch setting status REJECTED
and the conflict party, with the rejection reason carried in the apology
response text and next action REJECTED_GENERIC; a REJECTED record (with gate
1 off) resolves to REJECTED_GENERIC on every call; and no validated
extraction patch can unset a REJECTED status through the fast-path merge. -/
theorem c7_conflict_screen_terminal :
    (∀ name : String, (∃ entry ∈ MOCK_CLIENT_DB, jsTrim (jsToLower name) = jsToLower entry) →
      checkConflictInDb name = true)
    ∧ (∀ name : String, (∀ entry ∈ MOCK_CLIENT_DB, jsTrim (jsToLower name) ≠ jsToLower entry) →
      checkConflictInDb name = false)
    ∧ (∀ (validate : String → FieldVal → Bool) (flatData0 : List (String × FieldVal)) (party : String),
        flatLookupStr (stripResponseText flatData0) "admin.conflict_party" = some party →
        party ≠ "" → checkConflictInDb party = true →
        (processTurnResult validate flatData0).extracted_data.status = some CaseStatus.rejected ∧
        (∃ ap : AdminPatch, (processTurnResult validate flatData0).extracted_data.admin = some ap ∧
          ap.conflict_party = some (some party)) ∧
        (processTurnResult validate flatData0).response_text = conflictApology party ∧
        (processTurnResult validate flatData0).next_system_action = some "REJECTED_GENERIC")
    ∧ (∀ cf : CaseFile, cf.status = CaseStatus.rejected → cf.admin.prior_representation ≠ some true →
        getNextMissingSlot cf = "REJECTED_GENERIC")
    ∧ (∀ (validate : String → FieldVal → Bool) (flatData : List (String × FieldVal)) (cf : CaseFile),
        cf.status = CaseStatus.rejected →
        (applyTurnPatch cf (buildNestedExtraction validate flatData)).status = CaseStatus.rejected) := by
  refine ⟨?_, ?_, ?_, ?_, ?_⟩
  · intro name hex
    obtain ⟨entry, hentry, heq⟩ := hex
    have hname : ¬(name = "") := by
      intro hcon
      subst hcon
      have hemp : jsTrim (jsToLower "") = "" := by decide
      rw [hemp] at heq
      have hne : ∀ e ∈ MOCK_CLIENT_DB, jsToLower e ≠ "" := by decide
      exact hne entry hentry heq.symm
    unfold checkConflictInDb
    rw [if_neg hname, List.any_eq_true]
    exact ⟨entry, hentry, by simp [heq]⟩
  · intro name hne
    unfold checkConflictInDb
    by_cases hname : name = ""
    · rw [if_pos hname]
    · rw [if_neg hname, List.any_eq_false]
      intro entry hentry
      simp only [decide_eq_true_eq]
      exact fun hcon => hne entry hentry hcon.symm
  · intro validate flat0 party hfl hpne hconf
    have hcond : (party ≠ "" && checkConflictInDb party) = true := by
      simp [hpne, hconf]
    simp only [processTurnResult, hfl]
    rw [if_pos hcond]
    exact ⟨rfl, ⟨_, rfl, rfl⟩, rfl, rfl⟩
  · intro cf hst hpr
    simp [getNextMissingSlot, hpr, hst]
  · intro validate flatData cf hst
    simp [applyTurnPatch, buildNested_status, hst]

/-- Witness for C7: " John DOE " (case- and space-insensitively equal to the
registry entry "John Doe") screens as a conflict while "Jon Doe" does not; a
concrete conflict turn yields the terminal rejection patch; and the rejected
record keeps resolving to REJECTED_GENERIC. -/
theorem c7_conflict_screen_terminal_witness :
    checkConflictInDb " John DOE " = true ∧
    checkConflictInDb "Jon Doe" = false ∧
    (processTurnResult acceptAll
        [("response_text", FieldVal.strV "ok"), ("admin.conflict_party", FieldVal.strV "John Doe")]
      ).extracted_data.status = some CaseStatus.rejected ∧
    (processTurnResult acceptAll
        [("response_text", FieldVal.strV "ok"), ("admin.conflict_party", FieldVal.strV "John Doe")]
      ).next_system_action = some "REJECTED_GENERIC" ∧
    getNextMissingSlot conflictRejectedCase = "REJECTED_GENERIC" := by
  have h := c7_conflict_screen_terminal
  refine ⟨?_, ?_, ?_, ?_, ?_⟩
  · exact h.1 " John DOE " ⟨"John Doe", by decide, by decide⟩
  · exact h.2.1 "Jon Doe" (by decide)
  · exact (h.2.2.1 acceptAll
      [("response_text", FieldVal.strV "ok"), ("admin.conflict_party", FieldVal.strV "John Doe")]
      "John Doe" (by decide) (by decide) (by decide)).1
  · exact (h.2.2.1 acceptAll
      [("response_text", FieldVal.strV "ok"), ("admin.conflict_party", FieldVal.strV "John Doe")]
      "John Doe" (by decide) (by decide) (by decide)).2.2.2
  · exact h.2.2.2.1 conflictRejectedCase rfl (by decide)

/-- The nested extraction of a turn proposes nothing for a key all of whose
flat candidates fail validation, and nothing for a key absent from the flat
data. -/
theorem turnNested_patchField_none (validate : String → FieldVal → Bool)
    (flatData0 : List (String × FieldVal)) (s : String)
    (h : ∀ w, (s, w) ∈ stripResponseText flatData0 → validate s w = false) :
    patchField (turnNested validate flatData0) s = none :=
  buildNested_patchField_notin validate (stripResponseText flatData0) s h

/-- C8: a candidate value failing the Field Validator is excluded from the
merged patch entirely — the patch proposes nothing for its slot, the stored
field keeps its prior value after the merge, the turn still returns normally
rather than raising — and when that slot was the resolver's next pending step
and the turn's other accepted writes target only steps that were still
incomplete (and do not newly affirm prior representation), the resolver
re-surfaces the same slot on the merged record. -/
theorem c8_validation_rejection_drop
    (validate : String → FieldVal → Bool) (flatData0 : List (String × FieldVal))
    (cf : CaseFile) (slot : String) (v : FieldVal)
    (hreg : slot ∈ registryIds)
    (hnd : ((stripResponseText flatData0).map Prod.fst).Nodup)
    (hlk : (stripResponseText flatData0).lookup slot = some v)
    (hfail : validate slot v = false)
    (hpr : cf.admin.prior_representation ≠ some true)
    (hst : cf.status ≠ CaseStatus.rejected)
    (hfirst : getNextMissingSlot cf = slot)
    (hrequested : ∀ step ∈ INTAKE_STEPS,
      isFieldComplete step.id (getValue cf step.id) = true →
      (stripResponseText flatData0).lookup step.id = none)
    (hpr2 : (applyTurnPatch cf (turnNested validate flatData0)).admin.prior_representation ≠ some true) :
    patchField (turnNested validate flatData0) slot = none ∧
    getValue (applyTurnPatch cf (turnNested validate flatData0)) slot = getValue cf slot ∧
    getNextMissingSlot (applyTurnPatch cf (turnNested validate flatData0)) = slot := by
  have hmemAll : slot ∈ allFieldIds := by
    have hsub : ∀ t ∈ registryIds, t ∈ allFieldIds := by decide
    exact hsub slot hreg
  have hdrop : patchField (turnNested validate flatData0) slot = none := by
    apply turnNested_patchField_none
    intro w hw
    have : (stripResponseText flatData0).lookup slot = some w := lookup_of_mem_nodup hnd hw
    rw [hlk] at this
    obtain rfl : v = w := Option.some.inj this
    exact hfail
  have hframe_slot := (merge_frame_both cf (turnNested validate flatData0) slot hmemAll hdrop).1
  refine ⟨hdrop, hframe_slot, ?_⟩
  -- locate slot as the first incomplete registry step of cf
  have hfind :
      ∃ st, INTAKE_STEPS.find? (fun step => !isFieldComplete step.id (getValue cf step.id)) = some st ∧
        st.id = slot := by
    rw [getNextMissingSlot, if_neg hpr, if_neg hst] at hfirst
    rcases hf : INTAKE_STEPS.find? (fun step => !isFieldComplete step.id (getValue cf step.id)) with _ | st
    · rw [hf] at hfirst
      have : slot ≠ "COMPLETE" := by
        have hsub : ∀ t ∈ registryIds, t ≠ "COMPLETE" := by decide
        exact hsub slot hreg
      exact absurd hfirst.symm this
    · rw [hf] at hfirst
      exact ⟨st, hf, hfirst⟩
  obtain ⟨st, hf, hstid⟩ := hfind
  obtain ⟨i, hi, hgeti, hpst, hearlier⟩ := find_some_first_index _ INTAKE_STEPS st hf
  -- merged record: gates stay off
  set merged := applyTurnPatch cf (turnNested validate flatData0) with hmerged
  have hmst : merged.status = cf.status := by
    rw [hmerged]
    simp [applyTurnPatch, turnNested, buildNested_status]
  -- frame for the already-complete earlier steps
  have hframe_step : ∀ j, ∀ hj : j < INTAKE_STEPS.length,
      isFieldComplete (INTAKE_STEPS.get ⟨j, hj⟩).id (getValue cf (INTAKE_STEPS.get ⟨j, hj⟩).id) = true →
      getValue merged (INTAKE_STEPS.get ⟨j, hj⟩).id = getValue cf (INTAKE_STEPS.get ⟨j, hj⟩).id := by
    intro j hj hcomp
    have hmem2 : (INTAKE_STEPS.get ⟨j, hj⟩).id ∈ allFieldIds := by
      have hsub : ∀ t ∈ registryIds, t ∈ allFieldIds := by decide
      apply hsub
      unfold registryIds
      exact List.mem_map_of_mem IntakeStep.id (INTAKE_STEPS.get_mem j hj)
    have hnolk : (stripResponseText flatData0).lookup (INTAKE_STEPS.get ⟨j, hj⟩).id = none :=
      hrequested (INTAKE_STEPS.get ⟨j, hj⟩) (INTAKE_STEPS.get_mem j hj) hcomp
    have hnone : patchField (turnNested validate flatData0) (INTAKE_STEPS.get ⟨j, hj⟩).id = none := by
      apply turnNested_patchField_none
      intro w hw
      exact absurd hw (lookup_none_not_mem hnolk)
    exact (merge_frame_both cf (turnNested validate flatData0) _ hmem2 hnone).1
  -- the merged scan hits the same first incomplete step
  have hfind2 : INTAKE_STEPS.find? (fun step => !isFieldComplete step.id (getValue merged step.id)) =
      some (INTAKE_STEPS.get ⟨i, hi⟩) := by
    apply find_eq_of_first_true
    · have hval : getValue merged (INTAKE_STEPS.get ⟨i, hi⟩).id = getValue cf (INTAKE_STEPS.get ⟨i, hi⟩).id := by
        rw [hgeti, hstid]
        exact hframe_slot
      rw [hval, hgeti]
      exact hpst
    · intro j hj
      have hb := hearlier j hj
      have hcomp : isFieldComplete (INTAKE_STEPS.get ⟨j, Nat.lt_trans hj hi⟩).id
          (getValue cf (INTAKE_STEPS.get ⟨j, Nat.lt_trans hj hi⟩).id) = true := by
        rcases hx : isFieldComplete (INTAKE_STEPS.get ⟨j, Nat.lt_trans hj hi⟩).id
            (getValue cf (INTAKE_STEPS.get ⟨j, Nat.lt_trans hj hi⟩).id) with _ | _
        · rw [hx] at hb
          simp at hb
        · rfl
      have hval := hframe_step j (Nat.lt_trans hj hi) hcomp
      rw [hval]
      exact hb
  rw [getNextMissingSlot, if_neg hpr2, if_neg (by rw [hmst]; exact hst), hfind2, hgeti]
  exact hstid

/-- Witness for C8: a rejected full_name candidate on the blank record is
dropped, the stored field stays null, and the resolver re-asks full_name. -/
theorem c8_validation_rejection_drop_witness :
    patchField (turnNested rejectAll [("contact.full_name", FieldVal.strV "Jane")])
      "contact.full_name" = none ∧
    getValue (applyTurnPatch INITIAL_CASE_FILE
      (turnNested rejectAll [("contact.full_name", FieldVal.strV "Jane")]))
      "contact.full_name" = FieldVal.nullV ∧
    getNextMissingSlot (applyTurnPatch INITIAL_CASE_FILE
      (turnNested rejectAll [("contact.full_name", FieldVal.strV "Jane")])) = "contact.full_name" := by
  have h := c8_validation_rejection_drop rejectAll [("contact.full_name", FieldVal.strV "Jane")]
    INITIAL_CASE_FILE "contact.full_name" (FieldVal.strV "Jane")
    (by decide) (by decide) (by decide) (by decide) (by decide) (by decide) (by decide)
    (by decide) (by decide)
  exact ⟨h.1, h.2.1.trans (by decide), h.2.2⟩

/-- Merging the empty patch is the identity. -/
theorem applyTurnPatch_empty (cf : CaseFile) : applyTurnPatch cf {} = cf := rfl

/-- C9: a raw oracle output that is empty, or has no balanced brace pair
after fence stripping, cleans to "\x7b\x7d"; and whenever the cleaned text fails to
parse — or parses to the empty object — the turn returns an empty extraction
patch (no exception escapes: the catch path returns normally) and merging
that patch leaves the record unmodified. -/
theorem c9_malformed_output_empty_patch
    (validate : String → FieldVal → Bool)
    (parse : String → Option (List (String × FieldVal)))
    (raw : String) (cf : CaseFile)
    (hparse_empty : parse "\x7b\x7d" = some []) :
    (raw = "" → cleanJsonResponse raw = "\x7b\x7d")
    ∧ (hasBracePair (stripFences raw) = false → cleanJsonResponse raw = "\x7b\x7d")
    ∧ (parse (cleanJsonResponse raw) = none →
        (processTurnFromRaw validate parse raw).extracted_data = {} ∧
        applyTurnPatch cf (processTurnFromRaw validate parse raw).extracted_data = cf)
    ∧ (cleanJsonResponse raw = "\x7b\x7d" →
        (processTurnFromRaw validate parse raw).extracted_data = {} ∧
        applyTurnPatch cf (processTurnFromRaw validate parse raw).extracted_data = cf) := by
  refine ⟨?_, ?_, ?_, ?_⟩
  · intro hr
    subst hr
    rfl
  · intro hnb
    by_cases hr : raw = ""
    · subst hr
      rfl
    · unfold cleanJsonResponse
      rw [if_neg hr]
      unfold hasBracePair at hnb
      rcases h1 : firstIdxOf '{' (stripFences raw) with _ | i
      · rfl
      · rcases h2 : lastIdxOf '}' (stripFences raw) with _ | j
        · rfl
        · rw [h1, h2] at hnb
          have hij : ¬(i < j) := by simpa using hnb
          simp [hij]
  · intro hpn
    unfold processTurnFromRaw
    rw [hpn]
    exact ⟨rfl, rfl⟩
  · intro hcl
    unfold processTurnFromRaw
    rw [hcl, hparse_empty]
    exact ⟨rfl, rfl⟩

/-- Witness for C9: a plain apology with no JSON object cleans to "\x7b\x7d" and
yields the empty patch; a brace fragment that still fails to parse takes the
catch path and also yields the empty patch; both leave the record unchanged. -/
theorem c9_malformed_output_empty_patch_witness :
    cleanJsonResponse "I am sorry, I cannot help with that." = "\x7b\x7d" ∧
    (processTurnFromRaw acceptAll emptyObjParse "I am sorry, I cannot help with that.").extracted_data = {} ∧
    applyTurnPatch INITIAL_CASE_FILE
      (processTurnFromRaw acceptAll emptyObjParse "I am sorry, I cannot help with that.").extracted_data =
      INITIAL_CASE_FILE ∧
    (processTurnFromRaw acceptAll emptyObjParse "xx\x7bbad\x7dyy").extracted_data = {} ∧
    cleanJsonResponse "" = "\x7b\x7d" := by
  have h1 := c9_malformed_output_empty_patch acceptAll emptyObjParse
    "I am sorry, I cannot help with that." INITIAL_CASE_FILE (by decide)
  have h2 := c9_malformed_output_empty_patch acceptAll emptyObjParse
    "xx\x7bbad\x7dyy" INITIAL_CASE_FILE (by decide)
  have h3 := c9_malformed_output_empty_patch acceptAll emptyObjParse "" INITIAL_CASE_FILE (by decide)
  have hcl : cleanJsonResponse "I am sorry, I cannot help with that." = "\x7b\x7d" :=
    h1.2.1 (by decide)
  refine ⟨hcl, (h1.2.2.2 hcl).1, (h1.2.2.2 hcl).2, (h2.2.2.1 (by decide)).1, h3.1 rfl⟩
